import Mathlib

/-
Shallow embedding of the cts-renderer GPU abstraction layer
(src/ctsrenderer/js/WGLRenderer.js, src/ctsrenderer/js/WGL2Renderer.js and
the WebGPU renderer in src/unnamed/part_000).

Modelling conventions:
* JS resource names (strings used as registry keys) are modelled as
  opaque identifiers `RName := Nat`.
* JS `Map` registries are association lists with `lookupName` / `setName` /
  `delName`; `setName` overwrites an existing entry, matching `Map.set`.
* Native GPU/GL objects are modelled as numeric handles drawn from a fresh
  counter `nextHandle` in the renderer state; `x.destroy()` /
  `gl.deleteX(x)` appends the handle to `destroyedHandles`.
* `emit(event, data)` appends the event to the chronological `events` list
  (listener behaviour is irrelevant to the claims); `console.warn` appends
  to `warnings`.
* A thrown JS `Error` is an `Except.error`; calling a method on a `null`
  context/device (a JS `TypeError`) is `RError.typeError`.  State mutations
  performed before a throw persist, exactly as for a mutated JS object.
* Byte payloads (`ArrayBuffer` data) are modelled by their byte length
  only; no claim inspects buffer contents.
* `performance.now()` based statistics (fps) are not needed by any
  claim; colour floats are kept as fixed-point tenths.
-/

namespace CTS

/-- Resource names: JS registry-key strings, modelled as opaque ids. -/
abbrev RName := Nat

/-- Association-list lookup, modelling `Map.get`. -/
def lookupName {κ α : Type} [DecidableEq κ] : List (κ × α) → κ → Option α
  | [], _ => none
  | (k, v) :: rest, key => if k = key then some v else lookupName rest key

/-- Association-list insert/overwrite, modelling `Map.set`. -/
def setName {κ α : Type} [DecidableEq κ] : List (κ × α) → κ → α → List (κ × α)
  | [], key, v => [(key, v)]
  | (k, w) :: rest, key, v =>
      if k = key then (key, v) :: rest else (k, w) :: setName rest key v

/-- Association-list removal, modelling `Map.delete`. -/
def delName {κ α : Type} [DecidableEq κ] : List (κ × α) → κ → List (κ × α)
  | [], _ => []
  | (k, w) :: rest, key =>
      if k = key then delName rest key else (k, w) :: delName rest key

/-- Membership test, modelling `Map.has`. -/
def hasName {κ α : Type} [DecidableEq κ] (m : List (κ × α)) (k : κ) : Bool :=
  (lookupName m k).isSome

theorem lookupName_setName_self {κ α : Type} [DecidableEq κ]
    (m : List (κ × α)) (k : κ) (v : α) :
    lookupName (setName m k v) k = some v := by
  induction m with
  | nil => simp [setName, lookupName]
  | cons hd tl ih =>
    obtain ⟨k0, v0⟩ := hd
    by_cases h : k0 = k
    · simp [setName, h, lookupName]
    · simp [setName, h, lookupName, ih]

/-- JS numeric `config.x || dflt`: `0`, like `undefined`, is falsy. -/
def jsOr (o : Option Nat) (d : Nat) : Nat :=
  match o with
  | none => d
  | some n => if n = 0 then d else n

/-- JS truthiness of an optional numeric argument. -/
def truthy (o : Option Nat) : Bool :=
  match o with
  | none => false
  | some n => n ≠ 0

/-- Required creation fields, for `InvalidConfig` errors. -/
inductive CfgField
  | nameField
  | dataField
  | usageField
  deriving DecidableEq

/-- Errors thrown (or rejections) by the renderers. -/
inductive RError
  | unsupportedBackend
  | adapterRequestFailed
  | deviceRequestFailed
  | contextAcquisitionFailed
  | notInitialized
  | invalidConfig (field : CfgField)
  | notFound (name : RName)
  | compileFailed
  | linkFailed
  | framebufferIncomplete
  | noPipelineSet
  | noProgramSet
  | allocFailed
  | typeError
  deriving DecidableEq

/-- Decidable equality for `Except` results, used by concrete witnesses. -/
instance instDecEqExcept {ε α : Type} [DecidableEq ε] [DecidableEq α] :
    DecidableEq (Except ε α)
  | .error e, .error f =>
    if h : e = f then .isTrue (by rw [h]) else .isFalse (by simp [h])
  | .error _, .ok _ => .isFalse (by simp)
  | .ok _, .error _ => .isFalse (by simp)
  | .ok a, .ok b =>
    if h : a = b then .isTrue (by rw [h]) else .isFalse (by simp [h])

/-- Events delivered through `emit`. -/
inductive REvent
  | initialized
  | errorEvent
  | destroyed
  | resize (w h : Nat)
  | bufferCreated (name : RName) (size : Nat)
  | bufferUpdated (name : RName) (offset size : Nat)
  | bufferDestroyed (name : RName)
  | textureCreated (name : RName) (w h : Nat)
  | textureUpdated (name : RName) (w h : Nat)
  | textureDestroyed (name : RName)
  | renderTargetCreated (name : RName) (w h : Nat)
  | renderTargetDestroyed (name : RName)
  | samplerCreated (name : RName)
  | bindGroupCreated (name : RName)
  | pipelineCreated (name : RName)
  | pipelineSet (name : RName)
  | programCreated (name : RName)
  | programSet (name : RName)
  | framebufferCreated (name : RName)
  | vertexAttributesSetup (name : RName)
  | draw
  | frameRendered (frameCount : Nat)
  | msaaChanged (samples : Nat)
  | computeDispatched (name : RName)
  deriving DecidableEq

/-- `console.warn` messages relevant to the claims. -/
inductive RWarning
  | rendererNotInitialized
  | bufferTooSmall (name : RName)
  | vertexBufferNotFound (name : RName)
  deriving DecidableEq

/-- Whether an event is `frameRendered`. -/
def REvent.isFrameRendered : REvent → Bool
  | .frameRendered _ => true
  | _ => false

/-- Number of `frameRendered` events in a log. -/
def countFrameRendered (es : List REvent) : Nat :=
  (es.filter REvent.isFrameRendered).length

theorem countFrameRendered_append (es fs : List REvent) :
    countFrameRendered (es ++ fs) = countFrameRendered es + countFrameRendered fs := by
  simp [countFrameRendered, List.filter_append]

/-- Constructor family of a context object handed back by `getContext`
(`instanceof` identity). -/
inductive CtxFamily
  | webgl1
  | webgl2
  | webgpu
  | other
  deriving DecidableEq

/-- A probe context object returned by `canvas.getContext`. -/
structure ProbeCtx where
  family : CtxFamily
  deriving DecidableEq

/-- Platform environment seen by the renderers: what `getContext` calls on
a (probe or instance) canvas return, and which WebGPU globals exist.  A
single record models both the throwaway probe canvas and the instance
canvas, since both talk to the same platform. -/
structure BrowserEnv where
  /-- Result of `getContext webgl` (or the experimental-webgl fallback). -/
  webglCtx : Option ProbeCtx
  /-- Result of `getContext webgl2`. -/
  webgl2Ctx : Option ProbeCtx
  /-- Result of `getContext webgpu`. -/
  webgpuCtx : Option ProbeCtx
  navigatorDefined : Bool
  gpuDefined : Bool
  gpuAdapterTypeDefined : Bool
  gpuDeviceTypeDefined : Bool
  /-- `navigator.gpu.requestAdapter()` resolves non-null. -/
  adapterAvailable : Bool
  /-- `adapter.requestDevice()` resolves non-null. -/
  deviceAvailable : Bool
  deriving DecidableEq

/-- Native render-state application calls (`gl.clearColor`,
`gl.enable/disable(DEPTH_TEST | BLEND | CULL_FACE)`), traced to express
"default render states applied in a fixed order". -/
inductive RStateCall
  | clearColor
  | depthTest
  | blend
  | cullFace
  deriving DecidableEq

/-- RGBA clear colour.  The source's float channels are modelled in
fixed-point tenths (`1` is 0.1, `10` is 1.0); no claim inspects channel
values. -/
structure Color4 where
  r : Int
  g : Int
  b : Int
  a : Int
  deriving DecidableEq

/-- Outcomes of native GL factory / build steps that the embedding treats
as oracles (shader compilation, program linking, allocation,
framebuffer completeness). -/
structure GLNative where
  allocOk : Bool := true
  compileOk : Bool := true
  linkOk : Bool := true
  fbComplete : Bool := true
  deriving DecidableEq

/-! ## WGLRenderer (WebGL1 backend, src/ctsrenderer/js/WGLRenderer.js) -/

/-- GL enum constants used by the embedding. -/
def GL_LESS : Nat := 0x0201
def GL_SRC_ALPHA : Nat := 0x0302
def GL_ONE_MINUS_SRC_ALPHA : Nat := 0x0303
def GL_BACK : Nat := 0x0405
def GL_TEXTURE_2D : Nat := 0x0DE1
def GL_RGBA : Nat := 0x1908
def GL_ARRAY_BUFFER : Nat := 0x8892
def GL_ELEMENT_ARRAY_BUFFER : Nat := 0x8893
def GL_STATIC_DRAW : Nat := 0x88E4

/-- Native buffer-upload calls, traced for the update-semantics claims. -/
inductive GLBufferOp
  | bufferData (btype len : Nat)
  | bufferSubData (btype offset len : Nat)
  deriving DecidableEq

/-- `BufferMetadata` of WGLRenderer. -/
structure GLBufferMeta where
  handle : Nat
  size : Nat
  usage : Nat
  btype : Nat
  deriving DecidableEq

/-- `TextureMetadata` of WGLRenderer. -/
structure GLTextureMeta where
  handle : Nat
  width : Nat
  height : Nat
  format : Nat
  internalFormat : Nat
  deriving DecidableEq

/-- `ProgramMetadata` of WGLRenderer (attribute/uniform caches omitted:
no claim depends on them). -/
structure GLProgramMeta where
  handle : Nat
  vertexShader : Nat
  fragmentShader : Nat
  deriving DecidableEq

/-- Mutable instance state of a `WGLRenderer`. -/
structure WGLState where
  /-- `this.context`; `none` is the JS `null`. -/
  context : Option Unit
  isInitialized : Bool
  programs : List (RName × GLProgramMeta)
  buffers : List (RName × GLBufferMeta)
  textures : List (RName × GLTextureMeta)
  framebuffers : List (RName × Nat)
  /-- Declared in the source but never populated by any method. -/
  renderbuffers : List (RName × Nat)
  currentProgram : Option RName
  currentFramebuffer : Option RName
  clearColor : Color4
  blendEnabled : Bool
  depthTestEnabled : Bool
  cullFaceEnabled : Bool
  cullFaceMode : Nat
  depthFunc : Nat
  blendSrc : Nat
  blendDst : Nat
  frameCount : Nat
  canvasWidth : Nat
  canvasHeight : Nat
  nextHandle : Nat
  events : List REvent
  warnings : List RWarning
  stateCalls : List RStateCall
  glBufferOps : List GLBufferOp
  destroyedHandles : List Nat
  deriving DecidableEq

/-- `emit`: appends the event to the chronological log. -/
def WGLState.emitEv (s : WGLState) (e : REvent) : WGLState :=
  { s with events := s.events ++ [e] }

/-- `console.warn`. -/
def WGLState.warn (s : WGLState) (w : RWarning) : WGLState :=
  { s with warnings := s.warnings ++ [w] }

namespace WGLRenderer

/-- Constructor state of `new WGLRenderer(canvas)` (renderer options are
consumed only by native context acquisition and are omitted). -/
def fresh (canvasW canvasH : Nat) : WGLState :=
  { context := none, isInitialized := false,
    programs := [], buffers := [], textures := [], framebuffers := [],
    renderbuffers := [],
    currentProgram := none, currentFramebuffer := none,
    clearColor := ⟨1, 1, 1, 10⟩,
    blendEnabled := false, depthTestEnabled := false, cullFaceEnabled := false,
    cullFaceMode := GL_BACK, depthFunc := GL_LESS,
    blendSrc := GL_SRC_ALPHA, blendDst := GL_ONE_MINUS_SRC_ALPHA,
    frameCount := 0, canvasWidth := canvasW, canvasHeight := canvasH,
    nextHandle := 0, events := [], warnings := [], stateCalls := [],
    glBufferOps := [], destroyedHandles := [] }

/-- `WGLRenderer.isSupported()`: probes a throwaway canvas and requires
both a non-null context and `instanceof WebGLRenderingContext`. -/
def isSupported (env : BrowserEnv) : Bool :=
  match env.webglCtx with
  | none => false
  | some c => c.family = CtxFamily.webgl1

/-- `setClearColor(r, g, b, a)`: stores the colour, then calls the native
`gl.clearColor` (a `TypeError` on a null context). -/
def setClearColor (s : WGLState) (r g b a : Int) :
    Except RError Unit × WGLState :=
  let s1 := { s with clearColor := ⟨r, g, b, a⟩ }
  match s1.context with
  | none => (.error .typeError, s1)
  | some _ => (.ok (), { s1 with stateCalls := s1.stateCalls ++ [.clearColor] })

/-- `setDepthTest(enabled, func)` (the source's default argument
`this.context.LESS` is passed explicitly by every modelled caller). -/
def setDepthTest (s : WGLState) (enabled : Bool) (func : Nat) :
    Except RError Unit × WGLState :=
  let s1 := { s with depthTestEnabled := enabled, depthFunc := func }
  match s1.context with
  | none => (.error .typeError, s1)
  | some _ => (.ok (), { s1 with stateCalls := s1.stateCalls ++ [.depthTest] })

/-- `setBlendState(enabled, func)` with the blend-function pair passed
explicitly (the source default is `this.blendFunc_`; the stored pair is
never reassigned by the source, the arguments feed only the native
`gl.blendFunc` call). -/
def setBlendState (s : WGLState) (enabled : Bool) (_src _dst : Nat) :
    Except RError Unit × WGLState :=
  let s1 := { s with blendEnabled := enabled }
  match s1.context with
  | none => (.error .typeError, s1)
  | some _ => (.ok (), { s1 with stateCalls := s1.stateCalls ++ [.blend] })

/-- `setCullFace(enabled, mode)`. -/
def setCullFace (s : WGLState) (enabled : Bool) (mode : Nat) :
    Except RError Unit × WGLState :=
  let s1 := { s with cullFaceEnabled := enabled, cullFaceMode := mode }
  match s1.context with
  | none => (.error .typeError, s1)
  | some _ => (.ok (), { s1 with stateCalls := s1.stateCalls ++ [.cullFace] })

/-- `WGLRenderer.initialize()`: support probe, context acquisition
(`webgl` falling back to `experimental-webgl`, both modelled by
`env.webglCtx`), then the four default render states in a fixed order,
then `isInitialized = true` and the `initialized` event.  A context
failure inside the `try` emits the `error` event before rethrowing; the
support failure throws before the `try` and emits nothing. -/
def init (env : BrowserEnv) (s : WGLState) :
    Except RError Bool × WGLState :=
  if isSupported env = false then (.error .unsupportedBackend, s)
  else
    match env.webglCtx with
    | none => (.error .contextAcquisitionFailed, s.emitEv .errorEvent)
    | some _ =>
      let s0 := { s with context := some () }
      match setClearColor s0 s0.clearColor.r s0.clearColor.g s0.clearColor.b
          s0.clearColor.a with
      | (.error e, t) => (.error e, t.emitEv .errorEvent)
      | (.ok _, s1) =>
        match setDepthTest s1 s1.depthTestEnabled GL_LESS with
        | (.error e, t) => (.error e, t.emitEv .errorEvent)
        | (.ok _, s2) =>
          match setBlendState s2 s2.blendEnabled s2.blendSrc s2.blendDst with
          | (.error e, t) => (.error e, t.emitEv .errorEvent)
          | (.ok _, s3) =>
            match setCullFace s3 s3.cullFaceEnabled s3.cullFaceMode with
            | (.error e, t) => (.error e, t.emitEv .errorEvent)
            | (.ok _, s4) =>
              let s5 := { s4 with isInitialized := true }
              (.ok true, s5.emitEv .initialized)

/-- `BufferConfig` of WGLRenderer (`data` kept as its byte length). -/
structure GLBufferConfig where
  name : RName
  dataLen : Nat
  usage : Option Nat := none
  btype : Option Nat := none
  deriving DecidableEq

/-- `createBuffer(config)`: initialization check, native allocation,
bind + `bufferData` upload, metadata registration, `bufferCreated`. -/
def createBuffer (s : WGLState) (nat0 : GLNative) (cfg : GLBufferConfig) :
    Except RError Nat × WGLState :=
  if s.isInitialized = false then (.error .notInitialized, s)
  else
    match s.context with
    | none => (.error .typeError, s)
    | some _ =>
      if nat0.allocOk = false then (.error .allocFailed, s)
      else
        let btype := jsOr cfg.btype GL_ARRAY_BUFFER
        let usage := jsOr cfg.usage GL_STATIC_DRAW
        let handle := s.nextHandle
        let meta : GLBufferMeta :=
          { handle := handle, size := cfg.dataLen, usage := usage, btype := btype }
        let s1 := { s with
          nextHandle := s.nextHandle + 1,
          buffers := setName s.buffers cfg.name meta,
          glBufferOps := s.glBufferOps ++ [GLBufferOp.bufferData btype cfg.dataLen] }
        (.ok handle, s1.emitEv (.bufferCreated cfg.name cfg.dataLen))

/-- `updateBuffer(name, data, offset)`: no initialization check; a
registry miss throws `NotFound`; a full-size offset-zero write goes
through `bufferData`, anything else through `bufferSubData` with no
capacity check of any kind. -/
def updateBuffer (s : WGLState) (name : RName) (len offset : Nat) :
    Except RError Unit × WGLState :=
  match lookupName s.buffers name with
  | none => (.error (.notFound name), s)
  | some bm =>
    match s.context with
    | none => (.error .typeError, s)
    | some _ =>
      let s1 :=
        if offset = 0 ∧ len = bm.size then
          { s with glBufferOps := s.glBufferOps ++ [GLBufferOp.bufferData bm.btype len] }
        else
          { s with glBufferOps := s.glBufferOps ++ [GLBufferOp.bufferSubData bm.btype offset len] }
      (.ok (), s1.emitEv (.bufferUpdated name offset len))

/-- `TextureConfig` of WGLRenderer (data payload and sampler parameters
have no observable effect in the embedding). -/
structure GLTextureConfig where
  name : RName
  width : Nat
  height : Nat
  format : Option Nat := none
  internalFormat : Option Nat := none
  deriving DecidableEq

/-- `createTexture(config)`. -/
def createTexture (s : WGLState) (nat0 : GLNative) (cfg : GLTextureConfig) :
    Except RError Nat × WGLState :=
  if s.isInitialized = false then (.error .notInitialized, s)
  else
    match s.context with
    | none => (.error .typeError, s)
    | some _ =>
      if nat0.allocOk = false then (.error .allocFailed, s)
      else
        let format := jsOr cfg.format GL_RGBA
        let internalFormat := jsOr cfg.internalFormat GL_RGBA
        let handle := s.nextHandle
        let meta : GLTextureMeta :=
          { handle := handle, width := cfg.width, height := cfg.height,
            format := format, internalFormat := internalFormat }
        let s1 := { s with
          nextHandle := s.nextHandle + 1,
          textures := setName s.textures cfg.name meta }
        (.ok handle, s1.emitEv (.textureCreated cfg.name cfg.width cfg.height))

/-- `createProgram(name, shaders)`: initialization check, then shader
compilation and linking (oracled by `GLNative`); a build failure is
caught, emits the `error` event and rethrows. -/
def createProgram (s : WGLState) (nat0 : GLNative) (name : RName) :
    Except RError Nat × WGLState :=
  if s.isInitialized = false then (.error .notInitialized, s)
  else
    match s.context with
    | none => (.error .typeError, s)
    | some _ =>
      if nat0.compileOk = false then (.error .compileFailed, s.emitEv .errorEvent)
      else if nat0.linkOk = false then (.error .linkFailed, s.emitEv .errorEvent)
      else
        let vs := s.nextHandle
        let fs := s.nextHandle + 1
        let handle := s.nextHandle + 2
        let meta : GLProgramMeta :=
          { handle := handle, vertexShader := vs, fragmentShader := fs }
        let s1 := { s with
          nextHandle := s.nextHandle + 3,
          programs := setName s.programs name meta }
        (.ok handle, s1.emitEv (.programCreated name))

/-- `createFramebuffer(name, attachments)`: the source performs NO
initialization check; it goes straight to `this.context.createFramebuffer()`
(a `TypeError` on the null context of an uninitialized renderer),
attaches the registered textures (skipping unknown names), checks
completeness, registers and emits. -/
def createFramebuffer (s : WGLState) (nat0 : GLNative) (name : RName)
    (_attachments : List (Nat × RName)) :
    Except RError Nat × WGLState :=
  match s.context with
  | none => (.error .typeError, s)
  | some _ =>
    if nat0.allocOk = false then (.error .allocFailed, s)
    else if nat0.fbComplete = false then (.error .framebufferIncomplete, s)
    else
      let handle := s.nextHandle
      let s1 := { s with
        nextHandle := s.nextHandle + 1,
        framebuffers := setName s.framebuffers name handle }
      (.ok handle, s1.emitEv (.framebufferCreated name))

/-- `useProgram(name)`: unknown names throw `NotFound`; rebinding the
current program is skipped (no native call, no event). -/
def useProgram (s : WGLState) (name : RName) : Except RError Unit × WGLState :=
  match lookupName s.programs name with
  | none => (.error (.notFound name), s)
  | some _ =>
    if s.currentProgram = some name then (.ok (), s)
    else
      match s.context with
      | none => (.error .typeError, s)
      | some _ =>
        (.ok (), ({ s with currentProgram := some name }).emitEv (.programSet name))

/-- `setFramebuffer(name)`: a non-null unknown name throws `NotFound`;
`null` rebinds the default framebuffer. -/
def setFramebuffer (s : WGLState) (name : Option RName) :
    Except RError Unit × WGLState :=
  match name with
  | some n =>
    if hasName s.framebuffers n = false then (.error (.notFound n), s)
    else
      match s.context with
      | none => (.error .typeError, s)
      | some _ => (.ok (), { s with currentFramebuffer := some n })
  | none =>
    match s.context with
    | none => (.error .typeError, s)
    | some _ => (.ok (), { s with currentFramebuffer := none })

/-- `bindTexture(name, target)` (the body; the source's default `target`
argument is supplied explicitly by callers in the embedding). -/
def bindTexture (s : WGLState) (name : RName) (_target : Nat) :
    Except RError Unit × WGLState :=
  match lookupName s.textures name with
  | none => (.error (.notFound name), s)
  | some _ =>
    match s.context with
    | none => (.error .typeError, s)
    | some _ => (.ok (), s)

/-- Draw-call configuration for `WGLRenderer.draw`. -/
structure GLDrawCall where
  count : Option Nat := none
  indices : Option RName := none
  deriving DecidableEq

/-- `draw(drawCall)`: warn-and-return when uninitialized, throw
`NoProgramSet` when no program is current; a missing index buffer or a
missing count issues no native draw but still emits `draw`. -/
def draw (s : WGLState) (_dc : GLDrawCall) : Except RError Unit × WGLState :=
  if s.isInitialized = false then (.ok (), s.warn .rendererNotInitialized)
  else if s.currentProgram = none then (.error .noProgramSet, s)
  else (.ok (), s.emitEv .draw)

/-- `render()`: increments the frame counter and emits `frameRendered`;
the source performs no pipeline/program check here at all. -/
def render (s : WGLState) : WGLState :=
  ({ s with frameCount := s.frameCount + 1 }).emitEv
    (.frameRendered (s.frameCount + 1))

/-- `destroy()`: deletes every program (with its shaders), buffer,
texture and framebuffer, clears those registries, nulls the context and
clears `isInitialized`, then emits `destroyed`.  (On a never-initialized
renderer the registries are empty, so the null-context delete calls are
never reached; the impossible combination of a null context with
populated registries is a `TypeError`.) -/
def destroy (s : WGLState) : Except RError Unit × WGLState :=
  let clear : WGLState := { s with
    destroyedHandles := s.destroyedHandles
      ++ s.programs.foldr
          (fun kv acc => kv.2.handle :: kv.2.vertexShader :: kv.2.fragmentShader :: acc) []
      ++ s.buffers.map (fun kv => kv.2.handle)
      ++ s.textures.map (fun kv => kv.2.handle)
      ++ s.framebuffers.map (fun kv => kv.2),
    programs := [], buffers := [], textures := [], framebuffers := [],
    context := none, isInitialized := false }
  match s.context with
  | some _ => (.ok (), clear.emitEv .destroyed)
  | none =>
    if s.programs = [] ∧ s.buffers = [] ∧ s.textures = [] ∧ s.framebuffers = [] then
      (.ok (), clear.emitEv .destroyed)
    else (.error .typeError, s)

end WGLRenderer

/-! ## WGL2Renderer (WebGL2 backend, src/unnamed/part_000 lines 14-120) -/

namespace WGL2Renderer

/-- `WGL2Renderer.isSupported()`: probes `webgl2` on a throwaway canvas
and requires `instanceof WebGL2RenderingContext`. -/
def isSupported (env : BrowserEnv) : Bool :=
  match env.webgl2Ctx with
  | none => false
  | some c => c.family = CtxFamily.webgl2

/-- `WGL2Renderer.initialize()`: identical to the WebGL1 flow except for
the support probe and the `webgl2` context source (the VAO registry it
adds is exercised by no claim). -/
def init (env : BrowserEnv) (s : WGLState) :
    Except RError Bool × WGLState :=
  if isSupported env = false then (.error .unsupportedBackend, s)
  else
    match env.webgl2Ctx with
    | none => (.error .contextAcquisitionFailed, s.emitEv .errorEvent)
    | some _ =>
      let s0 := { s with context := some () }
      match WGLRenderer.setClearColor s0 s0.clearColor.r s0.clearColor.g
          s0.clearColor.b s0.clearColor.a with
      | (.error e, t) => (.error e, t.emitEv .errorEvent)
      | (.ok _, s1) =>
        match WGLRenderer.setDepthTest s1 s1.depthTestEnabled GL_LESS with
        | (.error e, t) => (.error e, t.emitEv .errorEvent)
        | (.ok _, s2) =>
          match WGLRenderer.setBlendState s2 s2.blendEnabled s2.blendSrc s2.blendDst with
          | (.error e, t) => (.error e, t.emitEv .errorEvent)
          | (.ok _, s3) =>
            match WGLRenderer.setCullFace s3 s3.cullFaceEnabled s3.cullFaceMode with
            | (.error e, t) => (.error e, t.emitEv .errorEvent)
            | (.ok _, s4) =>
              let s5 := { s4 with isInitialized := true }
              (.ok true, s5.emitEv .initialized)

end WGL2Renderer

/-! ## WGPURenderer (WebGPU backend, src/unnamed/part_000 lines 232-1585) -/

/-- `GPUTextureUsage` flag constants. -/
def GPUTextureUsage_COPY_DST : Nat := 2
def GPUTextureUsage_TEXTURE_BINDING : Nat := 4
def GPUTextureUsage_RENDER_ATTACHMENT : Nat := 16

/-- `GPUTextureFormat` values appearing in the source. -/
inductive GPUFormat
  | rgba8unorm
  | bgra8unorm
  | depth24plusStencil8
  deriving DecidableEq

/-- `GPUIndexFormat`. -/
inductive IndexFormat
  | uint16
  | uint32
  deriving DecidableEq

/-- `GPUCullMode` (the source default is the string `none`). -/
inductive CullMode
  | nocull
  | front
  | back
  deriving DecidableEq

/-- `BufferMetadata` of WGPURenderer. -/
structure GPUBufferMeta where
  handle : Nat
  size : Nat
  usage : Nat
  indexFormat : Option IndexFormat
  deriving DecidableEq

/-- `TextureMetadata` of WGPURenderer (also used for render targets and
the MSAA / depth-stencil attachments). -/
structure GPUTextureMeta where
  handle : Nat
  view : Nat
  width : Nat
  height : Nat
  format : GPUFormat
  usage : Nat
  sampleCount : Nat := 1
  deriving DecidableEq

/-- A `GPUBindGroup` object: `device.createBindGroup` is called with
`layout: pipeline.getBindGroupLayout(0)` for the current pipeline, so the
object records which pipeline's layout (and which layout index) it was
built from, plus the caller's entry resources. -/
structure GPUBindGroupObj where
  layoutPipeline : Nat
  layoutIndex : Nat
  entries : List Nat
  deriving DecidableEq

/-- Mutable instance state of a `WGPURenderer`. -/
structure WGPUState where
  /-- `this.device_`. -/
  device : Option Nat
  /-- `this.context_`. -/
  context : Option Nat
  /-- `this.format_`. -/
  format : Option GPUFormat
  isInitialized : Bool
  pipelines : List (RName × Nat)
  computePipelines : List (RName × Nat)
  buffers : List (RName × GPUBufferMeta)
  textures : List (RName × GPUTextureMeta)
  samplers : List (RName × Nat)
  bindGroups : List (RName × GPUBindGroupObj)
  renderTargets : List (RName × GPUTextureMeta)
  /-- Shader-module cache keyed by exact source identity (vertex and
  fragment sources as an opaque pair). -/
  shaderModules : List ((Nat × Nat) × Nat)
  currentPipeline : Option RName
  currentRenderTarget : Option RName
  currentBindGroups : List (Nat × GPUBindGroupObj)
  clearColor : Color4
  msaaSampleCount : Nat
  msaaTexture : Option GPUTextureMeta
  depthEnabled : Bool
  depthStencilTexture : Option GPUTextureMeta
  blendEnabled : Bool
  cullMode : CullMode
  frameCount : Nat
  canvasWidth : Nat
  canvasHeight : Nat
  nextHandle : Nat
  /-- `device.queue.submit` calls (command-buffer submissions). -/
  submitCount : Nat
  events : List REvent
  warnings : List RWarning
  destroyedHandles : List Nat
  /-- Native render-state application calls.  The WebGPU backend has no
  such native calls anywhere (its state setters only store descriptor
  fields consumed later by `createPipeline`), so no operation of this
  backend ever appends to this trace; the field exists so that trace
  properties can be stated uniformly across backends. -/
  stateCalls : List RStateCall
  deriving DecidableEq

/-- `emit`. -/
def WGPUState.emitEv (s : WGPUState) (e : REvent) : WGPUState :=
  { s with events := s.events ++ [e] }

/-- `console.warn`. -/
def WGPUState.warn (s : WGPUState) (w : RWarning) : WGPUState :=
  { s with warnings := s.warnings ++ [w] }

namespace WGPURenderer

/-- Constructor state of `new WGPURenderer(canvas)`. -/
def fresh (canvasW canvasH : Nat) : WGPUState :=
  { device := none, context := none, format := none, isInitialized := false,
    pipelines := [], computePipelines := [], buffers := [], textures := [],
    samplers := [], bindGroups := [], renderTargets := [], shaderModules := [],
    currentPipeline := none, currentRenderTarget := none, currentBindGroups := [],
    clearColor := ⟨1, 1, 1, 10⟩,
    msaaSampleCount := 1, msaaTexture := none,
    depthEnabled := false, depthStencilTexture := none,
    blendEnabled := false, cullMode := .nocull,
    frameCount := 0, canvasWidth := canvasW, canvasHeight := canvasH,
    nextHandle := 0, submitCount := 0, events := [], warnings := [],
    destroyedHandles := [], stateCalls := [] }

/-- `WGPURenderer.isSupported()`: tests only that `navigator`,
`navigator.gpu` and the `GPUAdapter` / `GPUDevice` constructors exist.
No probe canvas or context is constructed. -/
def isSupported (env : BrowserEnv) : Bool :=
  env.navigatorDefined && env.gpuDefined &&
    env.gpuAdapterTypeDefined && env.gpuDeviceTypeDefined

/-- `WGPURenderer.initialize()`: support check, adapter and device
requests, `webgpu` context acquisition, preferred-format configuration,
then `isInitialized = true` and the `initialized` event.  The failures
inside the `try` emit the `error` event before rethrowing; the device
assignment survives a later context failure.  No render state of any
kind is applied. -/
def init (env : BrowserEnv) (s : WGPUState) :
    Except RError Bool × WGPUState :=
  if isSupported env = false then (.error .unsupportedBackend, s)
  else if env.adapterAvailable = false then
    (.error .adapterRequestFailed, s.emitEv .errorEvent)
  else if env.deviceAvailable = false then
    (.error .deviceRequestFailed, s.emitEv .errorEvent)
  else
    let s1 := { s with device := some (s.nextHandle), nextHandle := s.nextHandle + 1 }
    match env.webgpuCtx with
    | none => (.error .contextAcquisitionFailed, s1.emitEv .errorEvent)
    | some _ =>
      let s2 := { s1 with
        context := some s1.nextHandle,
        nextHandle := s1.nextHandle + 1,
        format := some GPUFormat.bgra8unorm,
        isInitialized := true }
      (.ok true, s2.emitEv .initialized)

/-- `destroyBuffer(name)`. -/
def destroyBuffer (s : WGPUState) (name : RName) : WGPUState :=
  match lookupName s.buffers name with
  | none => s
  | some bm =>
    ({ s with
      buffers := delName s.buffers name,
      destroyedHandles := s.destroyedHandles ++ [bm.handle] }).emitEv
      (.bufferDestroyed name)

/-- `destroyTexture(name)`. -/
def destroyTexture (s : WGPUState) (name : RName) : WGPUState :=
  match lookupName s.textures name with
  | none => s
  | some tm =>
    ({ s with
      textures := delName s.textures name,
      destroyedHandles := s.destroyedHandles ++ [tm.handle] }).emitEv
      (.textureDestroyed name)

/-- `destroy()`: destroys every buffer, texture and render target
(emitting per-resource events), clears those and the pipeline, compute
pipeline, sampler, bind-group and shader-module registries, nulls the
device and context and clears `isInitialized`, then emits `destroyed`.
(`bindGroupLayouts_`, `msaaTexture_` and `depthStencilTexture_` are not
touched by the source.) -/
def destroy (s : WGPUState) : WGPUState :=
  let s1 := { s with
    destroyedHandles := s.destroyedHandles
      ++ s.buffers.map (fun kv : RName × GPUBufferMeta => kv.2.handle)
      ++ s.textures.map (fun kv : RName × GPUTextureMeta => kv.2.handle)
      ++ s.renderTargets.map (fun kv : RName × GPUTextureMeta => kv.2.handle),
    events := s.events
      ++ s.buffers.map (fun kv : RName × GPUBufferMeta => REvent.bufferDestroyed kv.1)
      ++ s.textures.map (fun kv : RName × GPUTextureMeta => REvent.textureDestroyed kv.1)
      ++ s.renderTargets.map
          (fun kv : RName × GPUTextureMeta => REvent.renderTargetDestroyed kv.1),
    buffers := [], textures := [], renderTargets := [],
    pipelines := [], computePipelines := [], samplers := [],
    bindGroups := [], shaderModules := [],
    device := none, context := none, isInitialized := false }
  s1.emitEv .destroyed

/-- `updateBuffer(name, data, offset)`: initialization check, registry
lookup, a `console.warn` when `offset + data.byteLength` exceeds the
stored capacity (the write still proceeds through `queue.writeBuffer`),
then `bufferUpdated`. -/
def updateBuffer (s : WGPUState) (name : RName) (len : Nat) (offset : Nat) :
    Except RError Unit × WGPUState :=
  if s.isInitialized = false then (.error .notInitialized, s)
  else
    match lookupName s.buffers name with
    | none => (.error (.notFound name), s)
    | some bm =>
      let s1 := if bm.size < offset + len then s.warn (.bufferTooSmall name) else s
      match s1.device with
      | none => (.error .typeError, s1)
      | some _ => (.ok (), s1.emitEv (.bufferUpdated name offset len))

/-- `TextureConfig` of WGPURenderer. -/
structure TextureConfig where
  name : RName
  width : Nat
  height : Nat
  format : Option GPUFormat := none
  usage : Option Nat := none
  deriving DecidableEq

/-- `createTexture(config)`: initialization check, defaulted format and
usage, native texture + view creation, metadata registration,
`textureCreated`. -/
def createTexture (s : WGPUState) (cfg : TextureConfig) :
    Except RError Nat × WGPUState :=
  if s.isInitialized = false then (.error .notInitialized, s)
  else
    match s.device with
    | none => (.error .typeError, s)
    | some _ =>
      let format := cfg.format.getD GPUFormat.rgba8unorm
      let usage := jsOr cfg.usage
        (GPUTextureUsage_TEXTURE_BINDING + GPUTextureUsage_COPY_DST)
      let handle := s.nextHandle
      let view := s.nextHandle + 1
      let meta : GPUTextureMeta :=
        { handle := handle, view := view, width := cfg.width, height := cfg.height,
          format := format, usage := usage, sampleCount := 1 }
      let s1 := { s with
        nextHandle := s.nextHandle + 2,
        textures := setName s.textures cfg.name meta }
      (.ok handle, s1.emitEv (.textureCreated cfg.name cfg.width cfg.height))

/-- `updateTexture(name, data, width, height)`: no initialization check;
a registry miss throws `NotFound`.  `needsResize` holds exactly when
both dimensions are passed truthy and at least one differs from the
stored ones; in that case the texture is destroyed and recreated with
the stored format and usage, otherwise `queue.writeTexture` writes into
the existing storage at `width || stored` by `height || stored`. -/
def updateTexture (s : WGPUState) (name : RName) (width height : Option Nat) :
    Except RError Unit × WGPUState :=
  match lookupName s.textures name with
  | none => (.error (.notFound name), s)
  | some tm =>
    if truthy width = true ∧ truthy height = true ∧
        (width.getD 0 ≠ tm.width ∨ height.getD 0 ≠ tm.height) then
      let s1 := destroyTexture s name
      match createTexture s1
        { name := name, width := width.getD 0, height := height.getD 0,
          format := some tm.format, usage := some tm.usage } with
      | (.error e, t) => (.error e, t)
      | (.ok _, s2) =>
        match s2.device with
        | none => (.error .typeError, s2)
        | some _ =>
          (.ok (), s2.emitEv (.textureUpdated name (width.getD 0) (height.getD 0)))
    else
      let tw := match width with | none => tm.width | some w => if w = 0 then tm.width else w
      let th := match height with | none => tm.height | some h => if h = 0 then tm.height else h
      match s.device with
      | none => (.error .typeError, s)
      | some _ => (.ok (), s.emitEv (.textureUpdated name tw th))

/-- `BindGroupConfig` (entry resources as opaque ids). -/
structure BindGroupConfig where
  name : RName
  entries : List Nat := []
  deriving DecidableEq

/-- `createBindGroup(config)`: requires initialization AND a current
pipeline; the bind-group layout is always `getBindGroupLayout(0)` of the
current pipeline — the configuration supplies only the entries. -/
def createBindGroup (s : WGPUState) (cfg : BindGroupConfig) :
    Except RError Unit × WGPUState :=
  if s.isInitialized = false then (.error .notInitialized, s)
  else
    match s.currentPipeline with
    | none => (.error .noPipelineSet, s)
    | some pname =>
      match s.device with
      | none => (.error .typeError, s)
      | some _ =>
        match lookupName s.pipelines pname with
        | none => (.error .typeError, s)
        | some ph =>
          let bg : GPUBindGroupObj :=
            { layoutPipeline := ph, layoutIndex := 0, entries := cfg.entries }
          let s1 := { s with bindGroups := setName s.bindGroups cfg.name bg }
          (.ok (), s1.emitEv (.bindGroupCreated cfg.name))

/-- `setBindGroup(bindGroupName, index)`: unknown names throw `NotFound`. -/
def setBindGroup (s : WGPUState) (name : RName) (index : Nat) :
    Except RError Unit × WGPUState :=
  match lookupName s.bindGroups name with
  | none => (.error (.notFound name), s)
  | some bg =>
    (.ok (), { s with currentBindGroups := setName s.currentBindGroups index bg })

/-- `SamplerConfig` (address modes and filters have no observable effect
in the embedding). -/
structure SamplerConfig where
  name : RName
  deriving DecidableEq

/-- `createSampler(config)`. -/
def createSampler (s : WGPUState) (cfg : SamplerConfig) :
    Except RError Nat × WGPUState :=
  if s.isInitialized = false then (.error .notInitialized, s)
  else
    match s.device with
    | none => (.error .typeError, s)
    | some _ =>
      let handle := s.nextHandle
      let s1 := { s with
        nextHandle := s.nextHandle + 1,
        samplers := setName s.samplers cfg.name handle }
      (.ok handle, s1.emitEv (.samplerCreated cfg.name))

/-- `BufferConfig` of WGPURenderer: `name` and `data` are `none` when the
required field is missing or falsy; `data` is kept as its byte length. -/
structure BufferConfig where
  name : Option RName
  data : Option Nat
  usage : Nat := 0
  indexFormat : Option IndexFormat := none
  deriving DecidableEq

/-- `createBuffer(config)`: initialization check, required-field
validation (name, data, usage), map-at-creation write, metadata
registration with the explicit index format, `bufferCreated`. -/
def createBuffer (s : WGPUState) (cfg : BufferConfig) :
    Except RError Nat × WGPUState :=
  if s.isInitialized = false then (.error .notInitialized, s)
  else
    match cfg.name with
    | none => (.error (.invalidConfig .nameField), s)
    | some name =>
      match cfg.data with
      | none => (.error (.invalidConfig .dataField), s)
      | some len =>
        if cfg.usage = 0 then (.error (.invalidConfig .usageField), s)
        else
          match s.device with
          | none => (.error .typeError, s)
          | some _ =>
            let handle := s.nextHandle
            let meta : GPUBufferMeta :=
              { handle := handle, size := len, usage := cfg.usage,
                indexFormat := cfg.indexFormat }
            let s1 := { s with
              nextHandle := s.nextHandle + 1,
              buffers := setName s.buffers name meta }
            (.ok handle, s1.emitEv (.bufferCreated name len))

/-- `RenderTargetConfig`. -/
structure RenderTargetConfig where
  name : RName
  width : Nat
  height : Nat
  format : Option GPUFormat := none
  sampleCount : Option Nat := none
  deriving DecidableEq

/-- `createRenderTarget(config)`. -/
def createRenderTarget (s : WGPUState) (cfg : RenderTargetConfig) :
    Except RError Nat × WGPUState :=
  if s.isInitialized = false then (.error .notInitialized, s)
  else
    match s.device with
    | none => (.error .typeError, s)
    | some _ =>
      let format := cfg.format.getD GPUFormat.rgba8unorm
      let usage := GPUTextureUsage_RENDER_ATTACHMENT + GPUTextureUsage_TEXTURE_BINDING
      let handle := s.nextHandle
      let view := s.nextHandle + 1
      let meta : GPUTextureMeta :=
        { handle := handle, view := view, width := cfg.width, height := cfg.height,
          format := format, usage := usage,
          sampleCount := cfg.sampleCount.getD 1 }
      let s1 := { s with
        nextHandle := s.nextHandle + 2,
        renderTargets := setName s.renderTargets cfg.name meta }
      (.ok handle, s1.emitEv (.renderTargetCreated cfg.name cfg.width cfg.height))

/-- `setRenderTarget(name)`: a non-null unknown name throws `NotFound`;
`null` selects the default swap-chain surface. -/
def setRenderTarget (s : WGPUState) (name : Option RName) :
    Except RError Unit × WGPUState :=
  match name with
  | some n =>
    if hasName s.renderTargets n = false then (.error (.notFound n), s)
    else (.ok (), { s with currentRenderTarget := some n })
  | none => (.ok (), { s with currentRenderTarget := none })

/-- `getShaderModule_(code)`: cache keyed by exact source identity. -/
def getShaderModule (s : WGPUState) (key : Nat × Nat) : Nat × WGPUState :=
  match lookupName s.shaderModules key with
  | some m => (m, s)
  | none =>
    let m := s.nextHandle
    (m, { s with
      nextHandle := s.nextHandle + 1,
      shaderModules := setName s.shaderModules key m })

/-- `PipelineConfig` (shader sources as opaque ids; vertex layouts,
primitive and depth-stencil options have no observable effect in the
embedding). -/
structure PipelineConfig where
  vertexShader : Nat
  fragmentShader : Nat
  deriving DecidableEq

/-- `createPipeline(name, config)`: initialization check, cached shader
module, native pipeline creation, registration, `pipelineCreated`. -/
def createPipeline (s : WGPUState) (name : RName) (cfg : PipelineConfig) :
    Except RError Nat × WGPUState :=
  if s.isInitialized = false then (.error .notInitialized, s)
  else
    match s.device with
    | none => (.error .typeError, s)
    | some _ =>
      let (_, s1) := getShaderModule s (cfg.vertexShader, cfg.fragmentShader)
      let handle := s1.nextHandle
      let s2 := { s1 with
        nextHandle := s1.nextHandle + 1,
        pipelines := setName s1.pipelines name handle }
      (.ok handle, s2.emitEv (.pipelineCreated name))

/-- `setPipeline(name)`: when the name is registered it becomes current
and `pipelineSet` is emitted; an unknown name is a SILENT no-op (no
throw, no warning, no event). -/
def setPipeline (s : WGPUState) (name : RName) : WGPUState :=
  if hasName s.pipelines name then
    ({ s with currentPipeline := some name }).emitEv (.pipelineSet name)
  else s

/-- Dispatch configuration of `dispatchCompute`. -/
structure ComputeConfig where
  workgroupCountX : Nat
  workgroupCountY : Option Nat := none
  workgroupCountZ : Option Nat := none
  bindGroups : List (Nat × RName) := []
  deriving DecidableEq

/-- `dispatchCompute(pipelineName, config)`: unknown pipeline names throw
`NotFound`; known bind-group names are bound and unknown ones skipped;
the dispatch is submitted immediately as its own command buffer. -/
def dispatchCompute (s : WGPUState) (name : RName) (_cfg : ComputeConfig) :
    Except RError Unit × WGPUState :=
  match lookupName s.computePipelines name with
  | none => (.error (.notFound name), s)
  | some _ =>
    match s.device with
    | none => (.error .typeError, s)
    | some _ =>
      let s1 := { s with submitCount := s.submitCount + 1 }
      (.ok (), s1.emitEv (.computeDispatched name))

/-- `createMSAATexture()`: no-op at sample count 1; destroys any
existing MSAA texture, then allocates one sized to the current canvas in
the canvas format with `RENDER_ATTACHMENT` usage and the current sample
count. -/
def createMSAATexture (s : WGPUState) : Except RError Unit × WGPUState :=
  if s.msaaSampleCount ≤ 1 then (.ok (), s)
  else
    let s1 :=
      match s.msaaTexture with
      | some m => { s with destroyedHandles := s.destroyedHandles ++ [m.handle] }
      | none => s
    match s1.device, s1.format with
    | some _, some fmt =>
      let handle := s1.nextHandle
      let view := s1.nextHandle + 1
      let meta : GPUTextureMeta :=
        { handle := handle, view := view,
          width := s1.canvasWidth, height := s1.canvasHeight,
          format := fmt, usage := GPUTextureUsage_RENDER_ATTACHMENT,
          sampleCount := s1.msaaSampleCount }
      (.ok (), { s1 with nextHandle := s1.nextHandle + 2, msaaTexture := some meta })
    | _, _ => (.error .typeError, s1)

/-- `setMSAA(enabled)`: warn-and-return-false when uninitialized; the
sample count becomes 4 (enabled) or 1 (disabled); enabling (re)creates
the offscreen MSAA texture, disabling destroys it immediately and nulls
the reference; `msaaChanged` is emitted. -/
def setMSAA (s : WGPUState) (enabled : Bool) :
    Except RError Bool × WGPUState :=
  if s.isInitialized = false then
    (.ok false, s.warn .rendererNotInitialized)
  else
    let s1 := { s with msaaSampleCount := if enabled then 4 else 1 }
    if 1 < s1.msaaSampleCount then
      match createMSAATexture s1 with
      | (.error e, t) => (.error e, t)
      | (.ok _, s2) => (.ok true, s2.emitEv (.msaaChanged s2.msaaSampleCount))
    else
      match s1.msaaTexture with
      | some m =>
        let s2 := { s1 with
          destroyedHandles := s1.destroyedHandles ++ [m.handle],
          msaaTexture := none }
        (.ok true, s2.emitEv (.msaaChanged 1))
      | none => (.ok true, s1.emitEv (.msaaChanged 1))

/-- Draw-call configuration for `WGPURenderer.render`. -/
structure DrawCall where
  vertexBuffers : List (Nat × RName) := []
  bindGroups : List (Nat × RName) := []
  indexBuffer : Option RName := none
  indexCount : Nat := 0
  vertexCount : Nat := 0
  deriving DecidableEq

/-- `beginFrame()`. -/
def beginFrame (s : WGPUState) : WGPUState :=
  { s with frameCount := s.frameCount + 1 }

/-- Resolution of the colour attachment view in `render` (a function of
the render-target selection and the MSAA state): the current render
target if set, else the MSAA texture when multisampling, else the
swap-chain surface; a dangling render-target name or a missing MSAA
texture is a `TypeError` on `undefined`/`null`. -/
def resolveColorAttachment (currentRenderTarget : Option RName)
    (renderTargets : List (RName × GPUTextureMeta))
    (msaaSampleCount : Nat) (msaaTexture : Option GPUTextureMeta) :
    Except RError Unit :=
  match currentRenderTarget with
  | some n =>
    match lookupName renderTargets n with
    | none => .error .typeError
    | some _ => .ok ()
  | none =>
    if 1 < msaaSampleCount then
      match msaaTexture with
      | none => .error .typeError
      | some _ => .ok ()
    else .ok ()

/-- `render(drawCall)`: `beginFrame()` increments the frame counter
FIRST; an uninitialized renderer then warns and returns; a missing
current pipeline throws `NoPipelineSet`; otherwise the pass is encoded
(unknown vertex-buffer and bind-group names are skipped silently, the
draw is indexed when the index buffer is registered, non-indexed when a
vertex count is given, absent otherwise), submitted once, and
`frameRendered` is emitted exactly once. -/
def render (s : WGPUState) (_dc : DrawCall) : Except RError Unit × WGPUState :=
  let s0 := beginFrame s
  if s0.isInitialized = false then (.ok (), s0.warn .rendererNotInitialized)
  else
    match s0.currentPipeline with
    | none => (.error .noPipelineSet, s0)
    | some pname =>
      match s0.device with
      | none => (.error .typeError, s0)
      | some _ =>
        match resolveColorAttachment s0.currentRenderTarget s0.renderTargets
            s0.msaaSampleCount s0.msaaTexture with
        | .error e => (.error e, s0)
        | .ok _ =>
          match lookupName s0.pipelines pname with
          | none => (.error .typeError, s0)
          | some _ =>
            let s1 := { s0 with submitCount := s0.submitCount + 1 }
            (.ok (), s1.emitEv (.frameRendered s1.frameCount))

end WGPURenderer

/-! ## Concrete states used by counterexamples and witnesses -/

/-- A platform where every backend probe and acquisition succeeds. -/
def envOk : BrowserEnv :=
  { webglCtx := some ⟨.webgl1⟩, webgl2Ctx := some ⟨.webgl2⟩,
    webgpuCtx := some ⟨.webgpu⟩,
    navigatorDefined := true, gpuDefined := true,
    gpuAdapterTypeDefined := true, gpuDeviceTypeDefined := true,
    adapterAvailable := true, deviceAvailable := true }

/-- A platform where all WebGPU presence checks pass but `webgpu` context
acquisition fails. -/
def envNoWebgpuCtx : BrowserEnv := { envOk with webgpuCtx := none }

/-- A WebGL renderer after successful initialization. -/
def wglReady : WGLState :=
  (WGLRenderer.init envOk (WGLRenderer.fresh 640 480)).2

/-- `wglReady` with a 4-byte buffer registered under name 1. -/
def wglWithBuf : WGLState :=
  (WGLRenderer.createBuffer wglReady {} { name := 1, dataLen := 4 }).2

/-- A WebGPU renderer after successful initialization. -/
def wgpuReady : WGPUState :=
  (WGPURenderer.init envOk (WGPURenderer.fresh 640 480)).2

/-- `wgpuReady` with a 2 by 2 texture registered under name 3. -/
def wgpuWithTex : WGPUState :=
  (WGPURenderer.createTexture wgpuReady { name := 3, width := 2, height := 2 }).2

/-- `wgpuReady` with a 4-byte buffer registered under name 1. -/
def wgpuWithBuf : WGPUState :=
  (WGPURenderer.createBuffer wgpuReady
    { name := some 1, data := some 4, usage := 8 }).2

/-- `wgpuReady` with a pipeline registered under name 1 and set current. -/
def wgpuWithPipe : WGPUState :=
  WGPURenderer.setPipeline
    (WGPURenderer.createPipeline wgpuReady 1
      { vertexShader := 10, fragmentShader := 11 }).2 1

/-- `wgpuReady` with MSAA enabled. -/
def wgpuMsaaOn : WGPUState := (WGPURenderer.setMSAA wgpuReady true).2

/-! ## C10 -/

/-- C10: on the encoder-based backend, `createBindGroup` has a
precondition beyond initialization: it throws the no-pipeline error
whenever no pipeline is currently set, and on success the bind group's
layout is derived from bind-group-layout index 0 of the currently set
pipeline, never from the caller's configuration (which supplies only the
entries). -/
theorem createBindGroup_requires_pipeline_layout0 :
    (∀ (s : WGPUState) (cfg : WGPURenderer.BindGroupConfig),
      s.isInitialized = true → s.currentPipeline = none →
      WGPURenderer.createBindGroup s cfg = (.error .noPipelineSet, s)) ∧
    (∀ (s : WGPUState) (cfg : WGPURenderer.BindGroupConfig) (p : RName) (ph d : Nat),
      s.isInitialized = true → s.currentPipeline = some p →
      s.device = some d → lookupName s.pipelines p = some ph →
      ∃ bg : GPUBindGroupObj,
        lookupName (WGPURenderer.createBindGroup s cfg).2.bindGroups cfg.name
          = some bg ∧
        bg.layoutPipeline = ph ∧ bg.layoutIndex = 0) := by
  constructor
  · intro s cfg h1 h2
    simp [WGPURenderer.createBindGroup, h1, h2]
  · intro s cfg p ph d h1 h2 hd hp
    refine ⟨⟨ph, 0, cfg.entries⟩, ?_, rfl, rfl⟩
    simp [WGPURenderer.createBindGroup, h1, h2, hd, hp, WGPUState.emitEv,
      lookupName_setName_self]

/-- Witness for C10: a concrete initialized renderer with no current
pipeline is rejected; with pipeline 1 (native handle 3) current, the bind
group created under name 5 carries layout index 0 of handle 3. -/
theorem createBindGroup_requires_pipeline_layout0_witness :
    (WGPURenderer.createBindGroup wgpuReady { name := 5 }
      = (.error .noPipelineSet, wgpuReady)) ∧
    (∃ bg : GPUBindGroupObj,
      lookupName (WGPURenderer.createBindGroup wgpuWithPipe { name := 5 }).2.bindGroups 5
        = some bg ∧
      bg.layoutPipeline = 3 ∧ bg.layoutIndex = 0) :=
  ⟨createBindGroup_requires_pipeline_layout0.1 wgpuReady { name := 5 }
      (by decide) (by decide),
   createBindGroup_requires_pipeline_layout0.2 wgpuWithPipe { name := 5 } 1 3 0
      (by decide) (by decide) (by decide) (by decide)⟩

/-! ## C8 -/

/-- C8: `setMSAA` supports exactly two levels (1 sample when disabled, 4
when enabled); on an initialized renderer enabling allocates an offscreen
multisample target sized to the current canvas dimensions, and disabling
destroys that target immediately and clears the reference to it. -/
theorem setMSAA_two_levels_eager :
    (∀ (s : WGPUState) (d : Nat) (fmt : GPUFormat),
      s.isInitialized = true → s.device = some d → s.format = some fmt →
      ∃ m : GPUTextureMeta,
        (WGPURenderer.setMSAA s true).1 = .ok true ∧
        (WGPURenderer.setMSAA s true).2.msaaSampleCount = 4 ∧
        (WGPURenderer.setMSAA s true).2.msaaTexture = some m ∧
        m.width = s.canvasWidth ∧ m.height = s.canvasHeight ∧ m.sampleCount = 4) ∧
    (∀ (s : WGPUState) (m : GPUTextureMeta),
      s.isInitialized = true → s.msaaTexture = some m →
      (WGPURenderer.setMSAA s false).1 = .ok true ∧
      (WGPURenderer.setMSAA s false).2.msaaSampleCount = 1 ∧
      (WGPURenderer.setMSAA s false).2.msaaTexture = none ∧
      (WGPURenderer.setMSAA s false).2.destroyedHandles
        = s.destroyedHandles ++ [m.handle]) ∧
    (∀ (s : WGPUState) (enabled : Bool),
      s.isInitialized = true →
      (WGPURenderer.setMSAA s enabled).2.msaaSampleCount
        = if enabled then 4 else 1) := by
  refine ⟨?_, ?_, ?_⟩
  · intro s d fmt h1 hd hf
    refine ⟨⟨s.nextHandle, s.nextHandle + 1, s.canvasWidth, s.canvasHeight, fmt,
      GPUTextureUsage_RENDER_ATTACHMENT, 4⟩, ?_⟩
    rcases hmt : s.msaaTexture with _ | m0 <;>
      simp [WGPURenderer.setMSAA, WGPURenderer.createMSAATexture, h1, hd, hf, hmt,
        WGPUState.emitEv]
  · intro s m h1 hmt
    simp [WGPURenderer.setMSAA, h1, hmt, WGPUState.emitEv]
  · intro s enabled h1
    rcases enabled with _ | _
    · simp only [WGPURenderer.setMSAA, h1]
      rcases hmt : s.msaaTexture with _ | m0 <;> simp [hmt, WGPUState.emitEv]
    · simp only [WGPURenderer.setMSAA, h1]
      rcases hmt : s.msaaTexture with _ | m0 <;>
        rcases hd : s.device with _ | d <;>
          rcases hf : s.format with _ | f <;>
            simp [WGPURenderer.createMSAATexture, hmt, hd, hf, WGPUState.emitEv]

/-- Witness for C8: enabling MSAA on the concrete initialized renderer
allocates a 640 by 480 offscreen 4-sample target; disabling it on the
resulting state destroys handle 2 and clears the reference. -/
theorem setMSAA_two_levels_eager_witness :
    (∃ m : GPUTextureMeta,
      (WGPURenderer.setMSAA wgpuReady true).1 = .ok true ∧
      (WGPURenderer.setMSAA wgpuReady true).2.msaaSampleCount = 4 ∧
      (WGPURenderer.setMSAA wgpuReady true).2.msaaTexture = some m ∧
      m.width = wgpuReady.canvasWidth ∧ m.height = wgpuReady.canvasHeight ∧
      m.sampleCount = 4) ∧
    ((WGPURenderer.setMSAA wgpuMsaaOn false).1 = .ok true ∧
     (WGPURenderer.setMSAA wgpuMsaaOn false).2.msaaSampleCount = 1 ∧
     (WGPURenderer.setMSAA wgpuMsaaOn false).2.msaaTexture = none ∧
     (WGPURenderer.setMSAA wgpuMsaaOn false).2.destroyedHandles
       = wgpuMsaaOn.destroyedHandles ++ [2]) ∧
    (WGPURenderer.setMSAA wgpuReady false).2.msaaSampleCount = 1 :=
  ⟨setMSAA_two_levels_eager.1 wgpuReady 0 .bgra8unorm
      (by decide) (by decide) (by decide),
   by
     have h := setMSAA_two_levels_eager.2.1 wgpuMsaaOn
       ⟨2, 3, 640, 480, .bgra8unorm, GPUTextureUsage_RENDER_ATTACHMENT, 4⟩
       (by decide) (by decide)
     exact h,
   by
     have h := setMSAA_two_levels_eager.2.2 wgpuReady false (by decide)
     simpa using h⟩

/-! ## C3 -/

/-- C3: `updateTexture` with omitted or unchanged dimensions writes into
the existing storage without reallocating (the whole texture registry,
including the stored native handle, is untouched); with both dimensions
given, positive and differing from the stored pair, it always destroys
and recreates the backing texture — the registered handle becomes the
fresh one and the old handle is destroyed — while the stored format and
usage are preserved. -/
theorem updateTexture_realloc_policy :
    (∀ (s : WGPUState) (name : RName) (tm : GPUTextureMeta) (d : Nat),
      lookupName s.textures name = some tm → s.device = some d →
      (WGPURenderer.updateTexture s name none none).1 = .ok () ∧
      (WGPURenderer.updateTexture s name none none).2.textures = s.textures) ∧
    (∀ (s : WGPUState) (name : RName) (tm : GPUTextureMeta) (d : Nat),
      lookupName s.textures name = some tm → s.device = some d →
      (WGPURenderer.updateTexture s name (some tm.width) (some tm.height)).1
        = .ok () ∧
      (WGPURenderer.updateTexture s name (some tm.width) (some tm.height)).2.textures
        = s.textures) ∧
    (∀ (s : WGPUState) (name : RName) (tm : GPUTextureMeta) (d w h : Nat),
      lookupName s.textures name = some tm → s.device = some d →
      s.isInitialized = true → tm.usage ≠ 0 →
      w ≠ 0 → h ≠ 0 → ¬(w = tm.width ∧ h = tm.height) →
      ∃ nm : GPUTextureMeta,
        (WGPURenderer.updateTexture s name (some w) (some h)).1 = .ok () ∧
        lookupName (WGPURenderer.updateTexture s name (some w) (some h)).2.textures
          name = some nm ∧
        nm.handle = s.nextHandle ∧
        nm.format = tm.format ∧ nm.usage = tm.usage ∧
        nm.width = w ∧ nm.height = h ∧
        tm.handle ∈ (WGPURenderer.updateTexture s name (some w) (some h)).2.destroyedHandles ∧
        (tm.handle ≠ s.nextHandle → nm.handle ≠ tm.handle)) := by
  refine ⟨?_, ?_, ?_⟩
  · intro s name tm d hl hd
    simp [WGPURenderer.updateTexture, hl, hd, truthy, WGPUState.emitEv]
  · intro s name tm d hl hd
    simp [WGPURenderer.updateTexture, hl, hd, truthy, WGPUState.emitEv]
  · intro s name tm d w h hl hd h1 hu hw hh hne
    refine ⟨⟨s.nextHandle, s.nextHandle + 1, w, h, tm.format, tm.usage, 1⟩, ?_⟩
    have hcond : truthy (some w) = true ∧ truthy (some h) = true ∧
        ((some w).getD 0 ≠ tm.width ∨ (some h).getD 0 ≠ tm.height) := by
      refine ⟨by simp [truthy, hw], by simp [truthy, hh], ?_⟩
      simp only [Option.getD_some]
      by_cases hew : w = tm.width
      · right
        intro heh
        exact hne ⟨hew, heh⟩
      · exact Or.inl hew
    simp only [WGPURenderer.updateTexture, hl, if_pos hcond,
      WGPURenderer.destroyTexture, WGPURenderer.createTexture, WGPUState.emitEv]
    simp [h1, hd, hu, jsOr, lookupName_setName_self, hw, hh]
    intro hne2 heq
    exact hne2 heq.symm

/-- Witness for C3 at the concrete 2 by 2 texture (handle 2) under name
3: a dimension-free update and a same-size update leave the registry
untouched; a 4 by 4 update reallocates to the fresh handle 4, destroys
handle 2 and preserves format and usage. -/
theorem updateTexture_realloc_policy_witness :
    ((WGPURenderer.updateTexture wgpuWithTex 3 none none).1 = .ok () ∧
     (WGPURenderer.updateTexture wgpuWithTex 3 none none).2.textures
       = wgpuWithTex.textures) ∧
    ((WGPURenderer.updateTexture wgpuWithTex 3 (some 2) (some 2)).1 = .ok () ∧
     (WGPURenderer.updateTexture wgpuWithTex 3 (some 2) (some 2)).2.textures
       = wgpuWithTex.textures) ∧
    (∃ nm : GPUTextureMeta,
      (WGPURenderer.updateTexture wgpuWithTex 3 (some 4) (some 4)).1 = .ok () ∧
      lookupName (WGPURenderer.updateTexture wgpuWithTex 3 (some 4) (some 4)).2.textures
        3 = some nm ∧
      nm.handle = wgpuWithTex.nextHandle ∧
      nm.format = GPUFormat.rgba8unorm ∧ nm.usage = 6 ∧
      nm.width = 4 ∧ nm.height = 4 ∧
      2 ∈ (WGPURenderer.updateTexture wgpuWithTex 3 (some 4) (some 4)).2.destroyedHandles ∧
      (2 ≠ wgpuWithTex.nextHandle → nm.handle ≠ 2)) := by
  refine ⟨?_, ?_, ?_⟩
  · exact updateTexture_realloc_policy.1 wgpuWithTex 3 ⟨2, 3, 2, 2, .rgba8unorm, 6, 1⟩ 0
      (by decide) (by decide)
  · exact updateTexture_realloc_policy.2.1 wgpuWithTex 3 ⟨2, 3, 2, 2, .rgba8unorm, 6, 1⟩ 0
      (by decide) (by decide)
  · exact updateTexture_realloc_policy.2.2 wgpuWithTex 3 ⟨2, 3, 2, 2, .rgba8unorm, 6, 1⟩
      0 4 4 (by decide) (by decide) (by decide) (by decide) (by decide) (by decide)
      (by decide)

/-! ## C1 -/

/-- C1 counterexample: on the initialized WebGPU renderer with no
pipeline set, `render()` does throw the no-pipeline error, but
`beginFrame()` has already run, so the frame counter IS incremented on
that failure path (0 becomes 1), contrary to the claim. -/
theorem render_noPipeline_increments_frameCount :
    wgpuReady.isInitialized = true ∧
    wgpuReady.currentPipeline = none ∧
    wgpuReady.frameCount = 0 ∧
    (WGPURenderer.render wgpuReady {}).1 = .error .noPipelineSet ∧
    (WGPURenderer.render wgpuReady {}).2.frameCount = 1 := by decide

/-- C1 amended: on the encoder-based renderer, `render()` with no active
pipeline throws `NoPipelineSet` and emits no event (in particular no
`frameRendered`), but the frame counter is incremented before the check;
every `render()` that returns normally on an initialized encoder-based
renderer emits `frameRendered` exactly once.  The WebGL renderer's
`render()` performs no program check at all: it unconditionally
increments the frame counter and emits `frameRendered` exactly once; the
`NoProgramSet` check lives in `draw()` instead. -/
theorem render_frameRendered_policy :
    (∀ (s : WGPUState) (dc : WGPURenderer.DrawCall),
      s.isInitialized = true → s.currentPipeline = none →
      (WGPURenderer.render s dc).1 = .error .noPipelineSet ∧
      (WGPURenderer.render s dc).2.frameCount = s.frameCount + 1 ∧
      (WGPURenderer.render s dc).2.events = s.events) ∧
    (∀ (s : WGPUState) (dc : WGPURenderer.DrawCall),
      s.isInitialized = true → (WGPURenderer.render s dc).1 = .ok () →
      countFrameRendered (WGPURenderer.render s dc).2.events
        = countFrameRendered s.events + 1) ∧
    (∀ s : WGLState,
      (WGLRenderer.render s).frameCount = s.frameCount + 1 ∧
      countFrameRendered (WGLRenderer.render s).events
        = countFrameRendered s.events + 1) ∧
    (∀ (s : WGLState) (dc : WGLRenderer.GLDrawCall),
      s.isInitialized = true → s.currentProgram = none →
      WGLRenderer.draw s dc = (.error .noProgramSet, s)) := by
  refine ⟨?_, ?_, ?_, ?_⟩
  · intro s dc h1 h2
    simp [WGPURenderer.render, WGPURenderer.beginFrame, h1, h2]
  · intro s dc h1 hok
    rcases hcp : s.currentPipeline with _ | pname
    · simp [WGPURenderer.render, WGPURenderer.beginFrame, h1, hcp] at hok
    · rcases hd : s.device with _ | d
      · simp [WGPURenderer.render, WGPURenderer.beginFrame, h1, hcp, hd] at hok
      · rcases hca : WGPURenderer.resolveColorAttachment s.currentRenderTarget
            s.renderTargets s.msaaSampleCount s.msaaTexture with e | u
        · simp [WGPURenderer.render, WGPURenderer.beginFrame, h1, hcp, hd, hca] at hok
        · rcases hp : lookupName s.pipelines pname with _ | ph
          · simp [WGPURenderer.render, WGPURenderer.beginFrame, h1, hcp, hd, hca, hp]
              at hok
          · simp [WGPURenderer.render, WGPURenderer.beginFrame, h1, hcp, hd, hca, hp,
              WGPUState.emitEv, countFrameRendered_append, countFrameRendered,
              REvent.isFrameRendered]
  · intro s
    simp [WGLRenderer.render, WGLState.emitEv, countFrameRendered_append,
      countFrameRendered, REvent.isFrameRendered]
  · intro s dc h1 h2
    simp [WGLRenderer.draw, h1, h2]

/-- Witness for C1: the no-pipeline failure at the concrete initialized
WebGPU renderer, a successful render at the concrete pipeline-bearing
renderer emitting exactly one `frameRendered`, the unconditional WebGL
`render()`, and the WebGL `draw()` rejection without a program. -/
theorem render_frameRendered_policy_witness :
    ((WGPURenderer.render wgpuReady {}).1 = .error .noPipelineSet ∧
     (WGPURenderer.render wgpuReady {}).2.frameCount = wgpuReady.frameCount + 1 ∧
     (WGPURenderer.render wgpuReady {}).2.events = wgpuReady.events) ∧
    (countFrameRendered (WGPURenderer.render wgpuWithPipe {}).2.events
      = countFrameRendered wgpuWithPipe.events + 1) ∧
    ((WGLRenderer.render wglReady).frameCount = wglReady.frameCount + 1 ∧
     countFrameRendered (WGLRenderer.render wglReady).events
       = countFrameRendered wglReady.events + 1) ∧
    (WGLRenderer.draw wglReady {} = (.error .noProgramSet, wglReady)) :=
  ⟨render_frameRendered_policy.1 wgpuReady {} (by decide) (by decide),
   render_frameRendered_policy.2.1 wgpuWithPipe {} (by decide) (by decide),
   render_frameRendered_policy.2.2.1 wglReady,
   render_frameRendered_policy.2.2.2 wglReady {} (by decide) (by decide)⟩

/-! ## C2 -/

/-- C2 counterexample: the WebGPU backend's `initialize()` resolves to an
initialized state without applying ANY default render state — its native
render-state trace stays empty instead of listing the four applications
claimed for every backend. -/
theorem wgpu_initialize_applies_no_render_states :
    (WGPURenderer.init envOk (WGPURenderer.fresh 640 480)).1 = .ok true ∧
    (WGPURenderer.init envOk (WGPURenderer.fresh 640 480)).2.isInitialized = true ∧
    (WGPURenderer.init envOk (WGPURenderer.fresh 640 480)).2.stateCalls = [] ∧
    ([] : List RStateCall)
      ≠ [.clearColor, .depthTest, .blend, .cullFace] := by decide

/-- C2 amended: on the WebGL and WebGL2 backends, a first `initialize()`
either resolves with `isInitialized = true` having applied exactly the
four default render states in the fixed order clear color, depth test,
blend, cull face, or rejects leaving `isInitialized = false` (no partial
state); the WebGPU backend likewise resolves initialized or rejects
uninitialized, but applies no default render state at all during
`initialize()`. -/
theorem initialize_default_states_policy :
    (∀ (env : BrowserEnv) (s : WGLState), s.isInitialized = false →
      (∀ b, (WGLRenderer.init env s).1 = .ok b →
        (WGLRenderer.init env s).2.isInitialized = true ∧
        (WGLRenderer.init env s).2.stateCalls
          = s.stateCalls ++ [.clearColor, .depthTest, .blend, .cullFace]) ∧
      (∀ e, (WGLRenderer.init env s).1 = .error e →
        (WGLRenderer.init env s).2.isInitialized = false)) ∧
    (∀ (env : BrowserEnv) (s : WGLState), s.isInitialized = false →
      (∀ b, (WGL2Renderer.init env s).1 = .ok b →
        (WGL2Renderer.init env s).2.isInitialized = true ∧
        (WGL2Renderer.init env s).2.stateCalls
          = s.stateCalls ++ [.clearColor, .depthTest, .blend, .cullFace]) ∧
      (∀ e, (WGL2Renderer.init env s).1 = .error e →
        (WGL2Renderer.init env s).2.isInitialized = false)) ∧
    (∀ (env : BrowserEnv) (s : WGPUState), s.isInitialized = false →
      (∀ b, (WGPURenderer.init env s).1 = .ok b →
        (WGPURenderer.init env s).2.isInitialized = true ∧
        (WGPURenderer.init env s).2.stateCalls = s.stateCalls) ∧
      (∀ e, (WGPURenderer.init env s).1 = .error e →
        (WGPURenderer.init env s).2.isInitialized = false)) := by
  refine ⟨?_, ?_, ?_⟩
  · intro env s h0
    rcases hs : WGLRenderer.isSupported env with _ | _
    · constructor
      · intro b hb
        simp [WGLRenderer.init, hs] at hb
      · intro e he
        simp [WGLRenderer.init, hs, h0]
    · rcases hctx : env.webglCtx with _ | c
      · constructor
        · intro b hb
          simp [WGLRenderer.init, hs, hctx] at hb
        · intro e he
          simp [WGLRenderer.init, hs, hctx, WGLState.emitEv, h0]
      · constructor
        · intro b hb
          constructor <;>
            simp [WGLRenderer.init, hs, hctx, WGLRenderer.setClearColor,
              WGLRenderer.setDepthTest, WGLRenderer.setBlendState,
              WGLRenderer.setCullFace, WGLState.emitEv]
        · intro e he
          simp [WGLRenderer.init, hs, hctx, WGLRenderer.setClearColor,
            WGLRenderer.setDepthTest, WGLRenderer.setBlendState,
            WGLRenderer.setCullFace, WGLState.emitEv] at he
  · intro env s h0
    rcases hs : WGL2Renderer.isSupported env with _ | _
    · constructor
      · intro b hb
        simp [WGL2Renderer.init, hs] at hb
      · intro e he
        simp [WGL2Renderer.init, hs, h0]
    · rcases hctx : env.webgl2Ctx with _ | c
      · constructor
        · intro b hb
          simp [WGL2Renderer.init, hs, hctx] at hb
        · intro e he
          simp [WGL2Renderer.init, hs, hctx, WGLState.emitEv, h0]
      · constructor
        · intro b hb
          constructor <;>
            simp [WGL2Renderer.init, hs, hctx, WGLRenderer.setClearColor,
              WGLRenderer.setDepthTest, WGLRenderer.setBlendState,
              WGLRenderer.setCullFace, WGLState.emitEv]
        · intro e he
          simp [WGL2Renderer.init, hs, hctx, WGLRenderer.setClearColor,
            WGLRenderer.setDepthTest, WGLRenderer.setBlendState,
            WGLRenderer.setCullFace, WGLState.emitEv] at he
  · intro env s h0
    rcases hs : WGPURenderer.isSupported env with _ | _
    · constructor
      · intro b hb
        simp [WGPURenderer.init, hs] at hb
      · intro e he
        simp [WGPURenderer.init, hs, h0]
    · rcases had : env.adapterAvailable with _ | _
      · constructor
        · intro b hb
          simp [WGPURenderer.init, hs, had] at hb
        · intro e he
          simp [WGPURenderer.init, hs, had, WGPUState.emitEv, h0]
      · rcases hdev : env.deviceAvailable with _ | _
        · constructor
          · intro b hb
            simp [WGPURenderer.init, hs, had, hdev] at hb
          · intro e he
            simp [WGPURenderer.init, hs, had, hdev, WGPUState.emitEv, h0]
        · rcases hctx : env.webgpuCtx with _ | c
          · constructor
            · intro b hb
              simp [WGPURenderer.init, hs, had, hdev, hctx] at hb
            · intro e he
              simp [WGPURenderer.init, hs, had, hdev, hctx, WGPUState.emitEv, h0]
          · constructor
            · intro b hb
              constructor <;>
                simp [WGPURenderer.init, hs, had, hdev, hctx, WGPUState.emitEv]
            · intro e he
              simp [WGPURenderer.init, hs, had, hdev, hctx, WGPUState.emitEv] at he

/-- Witness for C2 at concrete inputs: the WebGL and WebGL2 renderers on
the fully-working platform end initialized with the four state
applications in order; on the context-less platform the WebGL renderer's
`initialize` rejects with `isInitialized` still false; the WebGPU
renderer ends initialized with an empty state trace. -/
theorem initialize_default_states_policy_witness :
    ((WGLRenderer.init envOk (WGLRenderer.fresh 640 480)).2.isInitialized = true ∧
     (WGLRenderer.init envOk (WGLRenderer.fresh 640 480)).2.stateCalls
       = (WGLRenderer.fresh 640 480).stateCalls
           ++ [.clearColor, .depthTest, .blend, .cullFace]) ∧
    ((WGL2Renderer.init envOk (WGLRenderer.fresh 640 480)).2.isInitialized = true ∧
     (WGL2Renderer.init envOk (WGLRenderer.fresh 640 480)).2.stateCalls
       = (WGLRenderer.fresh 640 480).stateCalls
           ++ [.clearColor, .depthTest, .blend, .cullFace]) ∧
    ((WGLRenderer.init { envOk with webglCtx := none }
        (WGLRenderer.fresh 640 480)).2.isInitialized = false) ∧
    ((WGPURenderer.init envOk (WGPURenderer.fresh 640 480)).2.isInitialized = true ∧
     (WGPURenderer.init envOk (WGPURenderer.fresh 640 480)).2.stateCalls
       = (WGPURenderer.fresh 640 480).stateCalls) :=
  ⟨(initialize_default_states_policy.1 envOk (WGLRenderer.fresh 640 480)
      (by decide)).1 true (by decide),
   (initialize_default_states_policy.2.1 envOk (WGLRenderer.fresh 640 480)
      (by decide)).1 true (by decide),
   (initialize_default_states_policy.1 { envOk with webglCtx := none }
      (WGLRenderer.fresh 640 480) (by decide)).2 .unsupportedBackend (by decide),
   (initialize_default_states_policy.2.2 envOk (WGPURenderer.fresh 640 480)
      (by decide)).1 true (by decide)⟩

/-! ## C4 -/

/-- C4 counterexample: on the WebGL backend, a sub-range `updateBuffer`
whose extent (offset 2 + 4 data bytes) exceeds the 4-byte allocated
capacity of buffer 1 succeeds with no warning and no rejection — the
oversized `bufferSubData` is passed straight to the native layer. -/
theorem wgl_updateBuffer_overflow_silent :
    (lookupName wglWithBuf.buffers 1).map (fun bm : GLBufferMeta => bm.size)
      = some 4 ∧
    (WGLRenderer.updateBuffer wglWithBuf 1 4 2).1 = .ok () ∧
    (WGLRenderer.updateBuffer wglWithBuf 1 4 2).2.warnings = [] ∧
    (WGLRenderer.updateBuffer wglWithBuf 1 4 2).2.glBufferOps
      = wglWithBuf.glBufferOps ++ [.bufferSubData GL_ARRAY_BUFFER 2 4] := by decide

/-- C4 amended: only the encoder-based backend surfaces an out-of-capacity
`updateBuffer` extent, and it does so with a `console.warn` (the write
still proceeds); a within-capacity write produces no warning.  The WebGL
backend performs a sub-range write (non-zero offset or a length different
from the stored size) through `bufferSubData` with no capacity check of
any kind: no warning, no rejection, and the untruncated offset and length
are handed to the native call. -/
theorem updateBuffer_overflow_policy :
    (∀ (s : WGPUState) (name : RName) (len offset : Nat)
        (bm : GPUBufferMeta) (d : Nat),
      s.isInitialized = true → lookupName s.buffers name = some bm →
      s.device = some d →
      (bm.size < offset + len →
        (WGPURenderer.updateBuffer s name len offset).1 = .ok () ∧
        (WGPURenderer.updateBuffer s name len offset).2.warnings
          = s.warnings ++ [.bufferTooSmall name]) ∧
      (offset + len ≤ bm.size →
        (WGPURenderer.updateBuffer s name len offset).2.warnings = s.warnings)) ∧
    (∀ (s : WGLState) (name : RName) (len offset : Nat) (bm : GLBufferMeta),
      lookupName s.buffers name = some bm → s.context = some () →
      ¬(offset = 0 ∧ len = bm.size) →
      (WGLRenderer.updateBuffer s name len offset).1 = .ok () ∧
      (WGLRenderer.updateBuffer s name len offset).2.warnings = s.warnings ∧
      (WGLRenderer.updateBuffer s name len offset).2.glBufferOps
        = s.glBufferOps ++ [.bufferSubData bm.btype offset len]) := by
  constructor
  · intro s name len offset bm d h1 hb hd
    constructor
    · intro hover
      simp [WGPURenderer.updateBuffer, h1, hb, hd, hover, WGPUState.warn,
        WGPUState.emitEv]
    · intro hfits
      simp [WGPURenderer.updateBuffer, h1, hb, hd, Nat.not_lt.mpr hfits,
        WGPUState.emitEv]
  · intro s name len offset bm hb hctx hsub
    simp [WGLRenderer.updateBuffer, hb, hctx, hsub, WGLState.emitEv]

/-- Witness for C4: the concrete WebGPU buffer of size 4 warns on an
offset-2 length-4 write and stays silent on an in-range length-2 write;
the concrete WebGL buffer of size 4 takes the same oversized sub-range
write with no warning. -/
theorem updateBuffer_overflow_policy_witness :
    ((WGPURenderer.updateBuffer wgpuWithBuf 1 4 2).1 = .ok () ∧
     (WGPURenderer.updateBuffer wgpuWithBuf 1 4 2).2.warnings
       = wgpuWithBuf.warnings ++ [.bufferTooSmall 1]) ∧
    ((WGPURenderer.updateBuffer wgpuWithBuf 1 2 2).2.warnings
       = wgpuWithBuf.warnings) ∧
    ((WGLRenderer.updateBuffer wglWithBuf 1 4 2).1 = .ok () ∧
     (WGLRenderer.updateBuffer wglWithBuf 1 4 2).2.warnings
       = wglWithBuf.warnings ∧
     (WGLRenderer.updateBuffer wglWithBuf 1 4 2).2.glBufferOps
       = wglWithBuf.glBufferOps ++ [.bufferSubData GL_ARRAY_BUFFER 2 4]) :=
  ⟨(updateBuffer_overflow_policy.1 wgpuWithBuf 1 4 2 ⟨2, 4, 8, none⟩ 0
      (by decide) (by decide) (by decide)).1 (by decide),
   (updateBuffer_overflow_policy.1 wgpuWithBuf 1 2 2 ⟨2, 4, 8, none⟩ 0
      (by decide) (by decide) (by decide)).2 (by decide),
   updateBuffer_overflow_policy.2 wglWithBuf 1 4 2
      ⟨0, 4, GL_STATIC_DRAW, GL_ARRAY_BUFFER⟩ (by decide) (by decide) (by decide)⟩

/-! ## C5 -/

/-- C5 counterexample: after `destroy()` on the initialized WebGL
renderer holding buffer 1, a subsequent `updateBuffer` fails — but with
the `NotFound` error from the now-empty registry, not with the
`NotInitialized` error the claim requires of every create/update call. -/
theorem post_destroy_updateBuffer_notFound :
    (WGLRenderer.updateBuffer (WGLRenderer.destroy wglWithBuf).2 1 4 0).1
      = .error (.notFound 1) ∧
    (WGLRenderer.updateBuffer (WGLRenderer.destroy wglWithBuf).2 1 4 0).1
      ≠ .error .notInitialized := by decide

/-- C5 amended: `destroy()` empties every buffer / texture /
program-or-pipeline / framebuffer-or-render-target / bind-group / sampler
registry and clears `isInitialized`; afterwards every `create*` and
`update*` call fails, but not uniformly with `NotInitialized`: the calls
that check initialization fail with `NotInitialized`, while the WebGL
`updateBuffer` and the WebGPU `updateTexture` (which never check) fail
with `NotFound` from the emptied registries, and the WebGL
`createFramebuffer` (which has no initialization check) fails from the
nulled context. -/
theorem destroy_clears_registries :
    (∀ s : WGLState, s.context = some () →
      (WGLRenderer.destroy s).1 = .ok () ∧
      ((WGLRenderer.destroy s).2.programs = [] ∧
       (WGLRenderer.destroy s).2.buffers = [] ∧
       (WGLRenderer.destroy s).2.textures = [] ∧
       (WGLRenderer.destroy s).2.framebuffers = [] ∧
       (WGLRenderer.destroy s).2.isInitialized = false ∧
       (WGLRenderer.destroy s).2.context = none) ∧
      (∀ nat0 cfg, WGLRenderer.createBuffer (WGLRenderer.destroy s).2 nat0 cfg
        = (.error .notInitialized, (WGLRenderer.destroy s).2)) ∧
      (∀ nat0 cfg, WGLRenderer.createTexture (WGLRenderer.destroy s).2 nat0 cfg
        = (.error .notInitialized, (WGLRenderer.destroy s).2)) ∧
      (∀ nat0 nm, WGLRenderer.createProgram (WGLRenderer.destroy s).2 nat0 nm
        = (.error .notInitialized, (WGLRenderer.destroy s).2)) ∧
      (∀ nat0 nm att, WGLRenderer.createFramebuffer (WGLRenderer.destroy s).2 nat0 nm att
        = (.error .typeError, (WGLRenderer.destroy s).2)) ∧
      (∀ nm len off, WGLRenderer.updateBuffer (WGLRenderer.destroy s).2 nm len off
        = (.error (.notFound nm), (WGLRenderer.destroy s).2))) ∧
    (∀ s : WGPUState,
      ((WGPURenderer.destroy s).buffers = [] ∧
       (WGPURenderer.destroy s).textures = [] ∧
       (WGPURenderer.destroy s).renderTargets = [] ∧
       (WGPURenderer.destroy s).pipelines = [] ∧
       (WGPURenderer.destroy s).computePipelines = [] ∧
       (WGPURenderer.destroy s).samplers = [] ∧
       (WGPURenderer.destroy s).bindGroups = [] ∧
       (WGPURenderer.destroy s).shaderModules = [] ∧
       (WGPURenderer.destroy s).isInitialized = false) ∧
      (∀ cfg, WGPURenderer.createBuffer (WGPURenderer.destroy s) cfg
        = (.error .notInitialized, WGPURenderer.destroy s)) ∧
      (∀ cfg, WGPURenderer.createTexture (WGPURenderer.destroy s) cfg
        = (.error .notInitialized, WGPURenderer.destroy s)) ∧
      (∀ cfg, WGPURenderer.createSampler (WGPURenderer.destroy s) cfg
        = (.error .notInitialized, WGPURenderer.destroy s)) ∧
      (∀ cfg, WGPURenderer.createRenderTarget (WGPURenderer.destroy s) cfg
        = (.error .notInitialized, WGPURenderer.destroy s)) ∧
      (∀ cfg, WGPURenderer.createBindGroup (WGPURenderer.destroy s) cfg
        = (.error .notInitialized, WGPURenderer.destroy s)) ∧
      (∀ nm cfg, WGPURenderer.createPipeline (WGPURenderer.destroy s) nm cfg
        = (.error .notInitialized, WGPURenderer.destroy s)) ∧
      (∀ nm len off, WGPURenderer.updateBuffer (WGPURenderer.destroy s) nm len off
        = (.error .notInitialized, WGPURenderer.destroy s)) ∧
      (∀ nm w h, WGPURenderer.updateTexture (WGPURenderer.destroy s) nm w h
        = (.error (.notFound nm), WGPURenderer.destroy s))) := by
  constructor
  · intro s hctx
    refine ⟨?_, ⟨?_, ?_, ?_, ?_, ?_, ?_⟩, ?_, ?_, ?_, ?_, ?_⟩ <;>
      simp [WGLRenderer.destroy, hctx, WGLState.emitEv, WGLRenderer.createBuffer,
        WGLRenderer.createTexture, WGLRenderer.createProgram,
        WGLRenderer.createFramebuffer, WGLRenderer.updateBuffer, lookupName]
  · intro s
    refine ⟨⟨?_, ?_, ?_, ?_, ?_, ?_, ?_, ?_, ?_⟩, ?_, ?_, ?_, ?_, ?_, ?_, ?_, ?_⟩ <;>
      simp [WGPURenderer.destroy, WGPUState.emitEv, WGPURenderer.createBuffer,
        WGPURenderer.createTexture, WGPURenderer.createSampler,
        WGPURenderer.createRenderTarget, WGPURenderer.createBindGroup,
        WGPURenderer.createPipeline, WGPURenderer.updateBuffer,
        WGPURenderer.updateTexture, lookupName]

/-- Witness for C5 at the concrete renderers holding one buffer each. -/
theorem destroy_clears_registries_witness :
    ((WGLRenderer.destroy wglWithBuf).2.buffers = [] ∧
     (WGLRenderer.destroy wglWithBuf).2.isInitialized = false ∧
     WGLRenderer.createBuffer (WGLRenderer.destroy wglWithBuf).2 {}
        { name := 2, dataLen := 4 }
       = (.error .notInitialized, (WGLRenderer.destroy wglWithBuf).2) ∧
     WGLRenderer.createFramebuffer (WGLRenderer.destroy wglWithBuf).2 {} 5 []
       = (.error .typeError, (WGLRenderer.destroy wglWithBuf).2) ∧
     WGLRenderer.updateBuffer (WGLRenderer.destroy wglWithBuf).2 1 4 0
       = (.error (.notFound 1), (WGLRenderer.destroy wglWithBuf).2)) ∧
    ((WGPURenderer.destroy wgpuWithBuf).buffers = [] ∧
     (WGPURenderer.destroy wgpuWithBuf).isInitialized = false ∧
     WGPURenderer.updateBuffer (WGPURenderer.destroy wgpuWithBuf) 1 4 0
       = (.error .notInitialized, WGPURenderer.destroy wgpuWithBuf) ∧
     WGPURenderer.updateTexture (WGPURenderer.destroy wgpuWithBuf) 1 none none
       = (.error (.notFound 1), WGPURenderer.destroy wgpuWithBuf)) := by
  have hgl := destroy_clears_registries.1 wglWithBuf (by decide)
  have hgpu := destroy_clears_registries.2 wgpuWithBuf
  exact ⟨⟨hgl.2.1.2.1, hgl.2.1.2.2.2.2.1, hgl.2.2.1 {} { name := 2, dataLen := 4 },
          hgl.2.2.2.2.2.1 {} 5 [], hgl.2.2.2.2.2.2 1 4 0⟩,
         ⟨hgpu.1.1, hgpu.1.2.2.2.2.2.2.2.2, hgpu.2.2.2.2.2.2.2.1 1 4 0,
          hgpu.2.2.2.2.2.2.2.2 1 none none⟩⟩

/-! ## C6 -/

/-- C6 counterexample: `createFramebuffer` on a freshly constructed
(uninitialized) WebGL renderer fails — but from the null-context access
(a `TypeError`), not with the `NotInitialized` error the claim requires
of every `create*` operation, because the source omits the
initialization check there. -/
theorem wgl_createFramebuffer_skips_init_check :
    (WGLRenderer.fresh 640 480).isInitialized = false ∧
    (WGLRenderer.createFramebuffer (WGLRenderer.fresh 640 480) {} 5 []).1
      = .error .typeError ∧
    (WGLRenderer.createFramebuffer (WGLRenderer.fresh 640 480) {} 5 []).1
      ≠ .error .notInitialized := by decide

/-- C6 amended: every `create*` operation except the WebGL
`createFramebuffer` fails with `NotInitialized` on an uninitialized
renderer and returns the state unchanged; the WebGL `createFramebuffer`
performs no initialization check and instead fails from the null context
(`TypeError`) on a never-initialized renderer, likewise leaving the state
unchanged. -/
theorem create_requires_initialization :
    (∀ (s : WGLState) nat0 cfg, s.isInitialized = false →
      WGLRenderer.createBuffer s nat0 cfg = (.error .notInitialized, s)) ∧
    (∀ (s : WGLState) nat0 cfg, s.isInitialized = false →
      WGLRenderer.createTexture s nat0 cfg = (.error .notInitialized, s)) ∧
    (∀ (s : WGLState) nat0 nm, s.isInitialized = false →
      WGLRenderer.createProgram s nat0 nm = (.error .notInitialized, s)) ∧
    (∀ (s : WGLState) nat0 nm att, s.context = none →
      WGLRenderer.createFramebuffer s nat0 nm att = (.error .typeError, s)) ∧
    (∀ (s : WGPUState) cfg, s.isInitialized = false →
      WGPURenderer.createBuffer s cfg = (.error .notInitialized, s)) ∧
    (∀ (s : WGPUState) cfg, s.isInitialized = false →
      WGPURenderer.createTexture s cfg = (.error .notInitialized, s)) ∧
    (∀ (s : WGPUState) cfg, s.isInitialized = false →
      WGPURenderer.createSampler s cfg = (.error .notInitialized, s)) ∧
    (∀ (s : WGPUState) cfg, s.isInitialized = false →
      WGPURenderer.createRenderTarget s cfg = (.error .notInitialized, s)) ∧
    (∀ (s : WGPUState) cfg, s.isInitialized = false →
      WGPURenderer.createBindGroup s cfg = (.error .notInitialized, s)) ∧
    (∀ (s : WGPUState) nm cfg, s.isInitialized = false →
      WGPURenderer.createPipeline s nm cfg = (.error .notInitialized, s)) := by
  refine ⟨?_, ?_, ?_, ?_, ?_, ?_, ?_, ?_, ?_, ?_⟩
  · intro s nat0 cfg h
    simp [WGLRenderer.createBuffer, h]
  · intro s nat0 cfg h
    simp [WGLRenderer.createTexture, h]
  · intro s nat0 nm h
    simp [WGLRenderer.createProgram, h]
  · intro s nat0 nm att h
    simp [WGLRenderer.createFramebuffer, h]
  · intro s cfg h
    simp [WGPURenderer.createBuffer, h]
  · intro s cfg h
    simp [WGPURenderer.createTexture, h]
  · intro s cfg h
    simp [WGPURenderer.createSampler, h]
  · intro s cfg h
    simp [WGPURenderer.createRenderTarget, h]
  · intro s cfg h
    simp [WGPURenderer.createBindGroup, h]
  · intro s nm cfg h
    simp [WGPURenderer.createPipeline, h]

/-- Witness for C6: each `create*` at a concrete uninitialized renderer. -/
theorem create_requires_initialization_witness :
    WGLRenderer.createBuffer (WGLRenderer.fresh 640 480) {}
        { name := 1, dataLen := 4 }
      = (.error .notInitialized, WGLRenderer.fresh 640 480) ∧
    WGLRenderer.createTexture (WGLRenderer.fresh 640 480) {}
        { name := 2, width := 2, height := 2 }
      = (.error .notInitialized, WGLRenderer.fresh 640 480) ∧
    WGLRenderer.createProgram (WGLRenderer.fresh 640 480) {} 3
      = (.error .notInitialized, WGLRenderer.fresh 640 480) ∧
    WGLRenderer.createFramebuffer (WGLRenderer.fresh 640 480) {} 5 []
      = (.error .typeError, WGLRenderer.fresh 640 480) ∧
    WGPURenderer.createBuffer (WGPURenderer.fresh 640 480)
        { name := some 1, data := some 4, usage := 8 }
      = (.error .notInitialized, WGPURenderer.fresh 640 480) ∧
    WGPURenderer.createTexture (WGPURenderer.fresh 640 480)
        { name := 3, width := 2, height := 2 }
      = (.error .notInitialized, WGPURenderer.fresh 640 480) ∧
    WGPURenderer.createSampler (WGPURenderer.fresh 640 480) { name := 4 }
      = (.error .notInitialized, WGPURenderer.fresh 640 480) ∧
    WGPURenderer.createRenderTarget (WGPURenderer.fresh 640 480)
        { name := 6, width := 8, height := 8 }
      = (.error .notInitialized, WGPURenderer.fresh 640 480) ∧
    WGPURenderer.createBindGroup (WGPURenderer.fresh 640 480) { name := 7 }
      = (.error .notInitialized, WGPURenderer.fresh 640 480) ∧
    WGPURenderer.createPipeline (WGPURenderer.fresh 640 480) 8
        { vertexShader := 10, fragmentShader := 11 }
      = (.error .notInitialized, WGPURenderer.fresh 640 480) :=
  ⟨create_requires_initialization.1 _ {} _ (by decide),
   create_requires_initialization.2.1 _ {} _ (by decide),
   create_requires_initialization.2.2.1 _ {} _ (by decide),
   create_requires_initialization.2.2.2.1 _ {} _ _ (by decide),
   create_requires_initialization.2.2.2.2.1 _ _ (by decide),
   create_requires_initialization.2.2.2.2.2.1 _ _ (by decide),
   create_requires_initialization.2.2.2.2.2.2.1 _ _ (by decide),
   create_requires_initialization.2.2.2.2.2.2.2.1 _ _ (by decide),
   create_requires_initialization.2.2.2.2.2.2.2.2.1 _ _ (by decide),
   create_requires_initialization.2.2.2.2.2.2.2.2.2 _ _ _ (by decide)⟩

/-! ## C7 -/

/-- C7 counterexample: `setPipeline` with the unregistered name 9 on the
concrete initialized WebGPU renderer neither throws nor warns nor emits —
it returns the state completely unchanged, a silent no-op rather than the
fail-fast behaviour the claim requires. -/
theorem setPipeline_unknown_silent_noop :
    lookupName wgpuReady.pipelines 9 = none ∧
    WGPURenderer.setPipeline wgpuReady 9 = wgpuReady := by decide

/-- C7 amended: every listed name-referencing operation except
`setPipeline` fails fast with `NotFound` on an unregistered name and
leaves the state unchanged (`useProgram`, `setFramebuffer`,
`setRenderTarget`, `bindTexture`, `setBindGroup`, both `updateBuffer`
variants, `updateTexture`, `dispatchCompute`); `setPipeline` alone is a
silent no-op on an unregistered name. -/
theorem unknown_name_fails_fast :
    (∀ (s : WGLState) (n : RName), lookupName s.programs n = none →
      WGLRenderer.useProgram s n = (.error (.notFound n), s)) ∧
    (∀ (s : WGLState) (n : RName), lookupName s.framebuffers n = none →
      WGLRenderer.setFramebuffer s (some n) = (.error (.notFound n), s)) ∧
    (∀ (s : WGLState) (n : RName) (t : Nat), lookupName s.textures n = none →
      WGLRenderer.bindTexture s n t = (.error (.notFound n), s)) ∧
    (∀ (s : WGLState) (n : RName) (len off : Nat), lookupName s.buffers n = none →
      WGLRenderer.updateBuffer s n len off = (.error (.notFound n), s)) ∧
    (∀ (s : WGPUState) (n : RName), lookupName s.renderTargets n = none →
      WGPURenderer.setRenderTarget s (some n) = (.error (.notFound n), s)) ∧
    (∀ (s : WGPUState) (n : RName) (i : Nat), lookupName s.bindGroups n = none →
      WGPURenderer.setBindGroup s n i = (.error (.notFound n), s)) ∧
    (∀ (s : WGPUState) (n : RName) (len off : Nat),
      s.isInitialized = true → lookupName s.buffers n = none →
      WGPURenderer.updateBuffer s n len off = (.error (.notFound n), s)) ∧
    (∀ (s : WGPUState) (n : RName) (w h : Option Nat),
      lookupName s.textures n = none →
      WGPURenderer.updateTexture s n w h = (.error (.notFound n), s)) ∧
    (∀ (s : WGPUState) (n : RName) (cfg : WGPURenderer.ComputeConfig),
      lookupName s.computePipelines n = none →
      WGPURenderer.dispatchCompute s n cfg = (.error (.notFound n), s)) ∧
    (∀ (s : WGPUState) (n : RName), lookupName s.pipelines n = none →
      WGPURenderer.setPipeline s n = s) := by
  refine ⟨?_, ?_, ?_, ?_, ?_, ?_, ?_, ?_, ?_, ?_⟩
  · intro s n h
    simp [WGLRenderer.useProgram, h]
  · intro s n h
    simp [WGLRenderer.setFramebuffer, hasName, h]
  · intro s n t h
    simp [WGLRenderer.bindTexture, h]
  · intro s n len off h
    simp [WGLRenderer.updateBuffer, h]
  · intro s n h
    simp [WGPURenderer.setRenderTarget, hasName, h]
  · intro s n i h
    simp [WGPURenderer.setBindGroup, h]
  · intro s n len off h1 h
    simp [WGPURenderer.updateBuffer, h1, h]
  · intro s n w h hl
    simp [WGPURenderer.updateTexture, hl]
  · intro s n cfg h
    simp [WGPURenderer.dispatchCompute, h]
  · intro s n h
    simp [WGPURenderer.setPipeline, hasName, h]

/-- Witness for C7: each operation at a concrete renderer and the
unregistered name 9. -/
theorem unknown_name_fails_fast_witness :
    WGLRenderer.useProgram wglReady 9 = (.error (.notFound 9), wglReady) ∧
    WGLRenderer.setFramebuffer wglReady (some 9) = (.error (.notFound 9), wglReady) ∧
    WGLRenderer.bindTexture wglReady 9 GL_TEXTURE_2D
      = (.error (.notFound 9), wglReady) ∧
    WGLRenderer.updateBuffer wglReady 9 4 0 = (.error (.notFound 9), wglReady) ∧
    WGPURenderer.setRenderTarget wgpuReady (some 9)
      = (.error (.notFound 9), wgpuReady) ∧
    WGPURenderer.setBindGroup wgpuReady 9 0 = (.error (.notFound 9), wgpuReady) ∧
    WGPURenderer.updateBuffer wgpuReady 9 4 0 = (.error (.notFound 9), wgpuReady) ∧
    WGPURenderer.updateTexture wgpuReady 9 none none
      = (.error (.notFound 9), wgpuReady) ∧
    WGPURenderer.dispatchCompute wgpuReady 9 { workgroupCountX := 1 }
      = (.error (.notFound 9), wgpuReady) ∧
    WGPURenderer.setPipeline wgpuReady 9 = wgpuReady :=
  ⟨unknown_name_fails_fast.1 wglReady 9 (by decide),
   unknown_name_fails_fast.2.1 wglReady 9 (by decide),
   unknown_name_fails_fast.2.2.1 wglReady 9 GL_TEXTURE_2D (by decide),
   unknown_name_fails_fast.2.2.2.1 wglReady 9 4 0 (by decide),
   unknown_name_fails_fast.2.2.2.2.1 wgpuReady 9 (by decide),
   unknown_name_fails_fast.2.2.2.2.2.1 wgpuReady 9 0 (by decide),
   unknown_name_fails_fast.2.2.2.2.2.2.1 wgpuReady 9 4 0 (by decide) (by decide),
   unknown_name_fails_fast.2.2.2.2.2.2.2.1 wgpuReady 9 none none (by decide),
   unknown_name_fails_fast.2.2.2.2.2.2.2.2.1 wgpuReady 9 { workgroupCountX := 1 }
     (by decide),
   unknown_name_fails_fast.2.2.2.2.2.2.2.2.2 wgpuReady 9 (by decide)⟩

/-! ## C9 -/

/-- C9 counterexample: on a platform where every WebGPU presence check
passes but `webgpu` context acquisition fails, the encoder-based
backend's static `isSupported()` still answers true — it never constructs
a probe context, so support acceptance is not conditioned on context
acquisition succeeding, contrary to the claim. -/
theorem wgpu_isSupported_no_probe :
    WGPURenderer.isSupported envNoWebgpuCtx = true ∧
    envNoWebgpuCtx.webgpuCtx = none ∧
    (WGPURenderer.init envNoWebgpuCtx (WGPURenderer.fresh 640 480)).1
      = .error .contextAcquisitionFailed := by decide

/-- C9 amended: the WebGL and WebGL2 backends' static `isSupported()`
probe a throwaway canvas and answer true exactly when context acquisition
succeeds AND the returned context has the precise constructor family of
that backend (a fallback context of another family is rejected); the
WebGPU backend's `isSupported()` tests only API presence — its answer is
invariant under everything else in the platform, including whether
context acquisition would succeed. -/
theorem isSupported_probe_policy :
    (∀ env : BrowserEnv,
      WGLRenderer.isSupported env = true ↔
        ∃ c : ProbeCtx, env.webglCtx = some c ∧ c.family = CtxFamily.webgl1) ∧
    (∀ env : BrowserEnv,
      WGL2Renderer.isSupported env = true ↔
        ∃ c : ProbeCtx, env.webgl2Ctx = some c ∧ c.family = CtxFamily.webgl2) ∧
    (∀ env1 env2 : BrowserEnv,
      env1.navigatorDefined = env2.navigatorDefined →
      env1.gpuDefined = env2.gpuDefined →
      env1.gpuAdapterTypeDefined = env2.gpuAdapterTypeDefined →
      env1.gpuDeviceTypeDefined = env2.gpuDeviceTypeDefined →
      WGPURenderer.isSupported env1 = WGPURenderer.isSupported env2) := by
  refine ⟨?_, ?_, ?_⟩
  · intro env
    rcases hctx : env.webglCtx with _ | c <;>
      simp [WGLRenderer.isSupported, hctx]
  · intro env
    rcases hctx : env.webgl2Ctx with _ | c <;>
      simp [WGL2Renderer.isSupported, hctx]
  · intro env1 env2 h1 h2 h3 h4
    simp [WGPURenderer.isSupported, h1, h2, h3, h4]

/-- Witness for C9: the working platform supports WebGL and WebGL2; a
platform granting a wrong-family context for `webgl` is rejected; the
WebGPU answer is unchanged between the working platform and the one
whose context acquisition fails. -/
theorem isSupported_probe_policy_witness :
    (WGLRenderer.isSupported envOk = true ↔
      ∃ c : ProbeCtx, envOk.webglCtx = some c ∧ c.family = CtxFamily.webgl1) ∧
    (WGL2Renderer.isSupported { envOk with webgl2Ctx := some ⟨.other⟩ } = true ↔
      ∃ c : ProbeCtx, ({ envOk with webgl2Ctx := some ⟨.other⟩ } :
        BrowserEnv).webgl2Ctx = some c ∧ c.family = CtxFamily.webgl2) ∧
    WGPURenderer.isSupported envOk = WGPURenderer.isSupported envNoWebgpuCtx :=
  ⟨isSupported_probe_policy.1 envOk,
   isSupported_probe_policy.2.1 { envOk with webgl2Ctx := some ⟨.other⟩ },
   isSupported_probe_policy.2.2 envOk envNoWebgpuCtx
     (by decide) (by decide) (by decide) (by decide)⟩

end CTS
